import Mathlib

/-!
Verification development for the workflow orchestration engine of the
`flow` repository (src/main.py, src/xano_client.py, src/workflows/*.py).

The Python code is shallowly embedded: every state-mutating workflow entry
point (`run_workflow` / `run_workflow_stream`) becomes a pure step function
`WorkflowState → ... → WorkflowState × String`, where the outputs of the
text-generation service are passed in as explicit oracle arguments (the
service is an external collaborator), and `datetime.now().isoformat()` is
passed in as an explicit `now : String` argument.  Python dicts with a known
key set become structures whose fields are `Option`-valued (`none` models an
absent key); `d.get(k, v)` becomes `field.getD v`.  Python floats are
modelled by `ℚ`; `round(x, 2)` and `"%.1f"` formatting are modelled as exact
decimal round-half-to-even on the rational value (the binary-float
representation error of CPython is below the granularity any claim here
touches).  Python regular-expression searches (`re.search`) are embedded as
deterministic leftmost-match scanners specialised to the concrete patterns
appearing in the source; for those patterns greedy matching never needs to
backtrack, so the scanners implement exactly the CPython semantics.
-/

namespace Flow

/-! ## Python string primitives -/

/-- Python `\s` character class (ASCII part, which is all the source ever
feeds it). -/
def isPySpace (c : Char) : Bool :=
  c = ' ' || c = '\t' || c = '\n' || c = '\x0d' || c = '\x0b' || c = '\x0c'

/-- Python `str.lower`, restricted to ASCII letters and the Cyrillic range
used by the Ukrainian phrases in the source. -/
def pyLowerChar (c : Char) : Char :=
  if 'A' ≤ c ∧ c ≤ 'Z' then Char.ofNat (c.toNat + 32)
  else if 'А' ≤ c ∧ c ≤ 'Я' then Char.ofNat (c.toNat + 32)
  else if c = 'Ё' then 'ё'
  else if c = 'І' then 'і'
  else if c = 'Ї' then 'ї'
  else if c = 'Є' then 'є'
  else if c = 'Ґ' then 'ґ'
  else c

/-- Python `str.upper`, restricted the same way. -/
def pyUpperChar (c : Char) : Char :=
  if 'a' ≤ c ∧ c ≤ 'z' then Char.ofNat (c.toNat - 32)
  else if 'а' ≤ c ∧ c ≤ 'я' then Char.ofNat (c.toNat - 32)
  else if c = 'ё' then 'Ё'
  else if c = 'і' then 'І'
  else if c = 'ї' then 'Ї'
  else if c = 'є' then 'Є'
  else if c = 'ґ' then 'Ґ'
  else c

def pyLower (s : String) : String := String.mk (s.data.map pyLowerChar)

def pyUpper (s : String) : String := String.mk (s.data.map pyUpperChar)

/-- Does `hay` start with `needle`? -/
def leadsWith : List Char → List Char → Bool
  | [], _ => true
  | _ :: _, [] => false
  | n :: ns, h :: hs => n = h && leadsWith ns hs

/-- Substring containment on character lists (Python `needle in hay`). -/
def listHas (needle : List Char) : List Char → Bool
  | [] => leadsWith needle []
  | c :: rest => leadsWith needle (c :: rest) || listHas needle rest

/-- Python `needle in hay` for strings. -/
def pyIn (needle hay : String) : Bool := listHas needle.data hay.data

/-- Python `str.strip()` (whitespace strip). -/
def pyStrip (s : String) : String :=
  String.mk (((s.data.dropWhile isPySpace).reverse.dropWhile isPySpace).reverse)

def pyWordsGo (cur : List Char) : List Char → List String
  | [] => if cur.isEmpty then [] else [String.mk cur.reverse]
  | c :: rest =>
    if isPySpace c then
      if cur.isEmpty then pyWordsGo [] rest
      else String.mk cur.reverse :: pyWordsGo [] rest
    else pyWordsGo (c :: cur) rest

/-- Python `str.split()` with no argument: split on whitespace runs,
dropping empty pieces. -/
def pyWords (s : String) : List String := pyWordsGo [] s.data

/-- Python `l[-n:]`. -/
def pyLastN {α : Type} (n : Nat) (l : List α) : List α := l.drop (l.length - n)

/-- Python dict lookup with default on an association list (`d.get(k, v)`);
the source's spec/criteria dicts are decoded JSON objects. -/
def dictGet (d : List (String × String)) (k v : String) : String :=
  match d.find? (fun p => p.1 = k) with
  | some p => p.2
  | none => v

/-- Truthiness of an optional string (Python `if x:` on a value that is a
string or `None`). -/
def truthyOptStr (o : Option String) : Bool := ¬ (o.getD "").isEmpty

/-! ## Regular-expression scanners

`re.search` returns the match at the leftmost feasible start position.  Both
patterns of the source (`score` and `turn-count`) are a literal/digit head
followed by deterministic greedy pieces, so a left-to-right scan with
maximal-munch at each position is exact. -/

/-- Maximal leading run of ASCII digits. -/
def takeDigits : List Char → (List Char × List Char)
  | [] => ([], [])
  | c :: rest =>
    if c.isDigit then
      let (ds, r) := takeDigits rest
      (c :: ds, r)
    else ([], c :: rest)

def digitsToNat (ds : List Char) : Nat :=
  ds.foldl (fun n c => n * 10 + (c.toNat - '0'.toNat)) 0

/-- A nonnegative decimal literal `(m, s)` denoting the value `m / 10 ^ s`
(the exact value of the matched digit group). -/
abbrev DecLit : Type := Nat × Nat

/-- The rational value of a decimal literal. -/
def decVal (p : DecLit) : ℚ := (p.1 : ℚ) / (10 : ℚ) ^ p.2

/-- Parse `\d+(?:\.\d+)?` at the head of the input, returning the decimal
literal and the rest of the input. -/
def parseDecimal (cs : List Char) : Option (DecLit × List Char) :=
  let (ds, r) := takeDigits cs
  if ds.isEmpty then none
  else
    match r with
    | '.' :: r2 =>
      let (fs, r3) := takeDigits r2
      if fs.isEmpty then some ((digitsToNat ds, 0), r)
      else some ((digitsToNat ds * 10 ^ fs.length + digitsToNat fs, fs.length), r3)
    | _ => some ((digitsToNat ds, 0), r)

/-- Consume a literal character sequence. -/
def dropLit : List Char → List Char → Option (List Char)
  | [], hay => some hay
  | _ :: _, [] => none
  | n :: ns, h :: hs => if n = h then dropLit ns hs else none

/-- Try a positional matcher at every start position, leftmost first
(`re.search`). -/
def searchFrom {α : Type} (f : List Char → Option α) : List Char → Option α
  | [] => f []
  | c :: rest =>
    match f (c :: rest) with
    | some r => some r
    | none => searchFrom f rest

/-! ## Score extractor (src/xano_client.py, `XanoClient._extract_score`) -/

/-- Round `n / d` (with `d > 0`) to the nearest natural, half to even. -/
def halfEvenNat (n d : Nat) : Nat :=
  let q := n / d
  let r := n % d
  if 2 * r < d then q
  else if d < 2 * r then q + 1
  else if q % 2 = 0 then q else q + 1

/-- Python `round(x, 2)` on the exact decimal value of a matched score:
round half to even at two decimal places (a no-op when the literal has at
most two fractional digits, which is the precision the reports use). -/
def round2dec (p : DecLit) : DecLit :=
  if p.2 ≤ 2 then p else (halfEvenNat p.1 (10 ^ (p.2 - 2)), 2)

/-- Python `"%.1f" % x` for a nonnegative percentage given as the exact
ratio `c / n * 100` (used by the accuracy-rate line in the evaluation
prompts): one decimal place, half to even. -/
def fmt1fRatio (c n : Nat) : String :=
  let m := halfEvenNat (c * 1000) n
  Nat.repr (m / 10) ++ "." ++ Nat.repr (m % 10)

/-- Match one score pattern at the current position: the literal label,
then `\s*`, then `(\d+(?:\.\d+)?)/(\d+(?:\.\d+)?)`. -/
def matchScoreAt (lit : List Char) (cs : List Char) : Option (DecLit × DecLit) :=
  match dropLit lit cs with
  | none => none
  | some cs1 =>
    match parseDecimal (cs1.dropWhile isPySpace) with
    | none => none
    | some (score, cs2) =>
      match cs2 with
      | '/' :: cs3 =>
        match parseDecimal cs3 with
        | some (max_score, _) => some (score, max_score)
        | none => none
      | _ => none

/-- The three pattern labels, in the priority order of the source:
bold-markdown, plain, localized. -/
def score_pattern_lits : List (List Char) :=
  ["**Total Score:**".data, "Total Score:".data, "Загальна оцінка:".data]

/-- The loop body of `_extract_score`: `max_score > 0` on the nonnegative
decimal value is exactly `p.1 ≠ 0` on its mantissa. -/
def extract_score_go : List (List Char) → List Char → Option DecLit
  | [], _ => none
  | lit :: rest, text =>
    match searchFrom (matchScoreAt lit) text with
    | some (score, max_score) =>
      if max_score.1 ≠ 0 then some (round2dec score) else extract_score_go rest text
    | none => extract_score_go rest text

/-- `XanoClient._extract_score`: try each pattern in order; on the first
pattern that matches, return the numerator (rounded to 2 places) if the
denominator is positive, otherwise fall through to the next pattern;
`None` if nothing yields a score. -/
def extract_score (evaluation_text : String) : Option ℚ :=
  (extract_score_go score_pattern_lits evaluation_text.data).map decVal

/-! ## Session-state data model (src/workflows/base.py, `WorkflowState`)

Turn records and the structured evaluator outputs are Python dicts; they are
embedded as structures with `Option`-valued fields, `none` meaning the key
is absent. -/

/-- Structured evaluator output dict (`EvalOutput.model_dump()` of the
examination / fill-gaps / analogous evaluator agents, or the empty dict). -/
structure EvalDict where
  complete : Option Bool := none
  missing_concepts : Option (List String) := none
  needs_clarification : Option Bool := none
  all_correct : Option Bool := none
  correct : Option Bool := none
  errors : Option (List String) := none
  feedback : Option String := none
deriving Repr, DecidableEq

/-- One element of `WorkflowState.answers` (shape is workflow-specific). -/
structure AnswerRecord where
  question_index : Option Nat := none
  assignment_index : Option Nat := none
  topic : Option String := none
  assignment : Option String := none
  answer : Option String := none
  timestamp : Option String := none
  evaluation : Option EvalDict := none
  graded : Option Bool := none
  waiting_for_answer : Option Bool := none
  waiting_for_topic : Option Bool := none
  user_message : Option String := none
  tutor_response : Option String := none
  agent_response : Option String := none
  coach_response : Option String := none
  assistant_response : Option String := none
  turn : Option Nat := none
  phase : Option String := none
deriving Repr, DecidableEq

/-- Reflection's per-phase collected-data dict. -/
structure PhaseData where
  responses : Option (List String) := none
  completed : Option Bool := none
deriving Repr, DecidableEq

/-- `WorkflowState.custom_data`: the workflow-private bag (Roleplay's
progress notes, Reflection's phase tracker and collections). -/
structure CustomData where
  progress_notes : Option (List String) := none
  phase : Option String := none
  aspiration : Option PhaseData := none
  strengths : Option PhaseData := none
  feed_forward : Option PhaseData := none
deriving Repr, DecidableEq

/-- One question/spec record of `WorkflowState.questions` (only the exam
prompts read its fields, so only those two keys are kept). -/
structure Question where
  question : Option String := none
  key_concepts : Option String := none
deriving Repr, DecidableEq

/-- `WorkflowState` (pydantic model of src/workflows/base.py). -/
structure WorkflowState where
  ub_id : Nat := 0
  block_id : Nat := 0
  current_question_index : Nat := 0
  questions : List Question := []
  answers : List AnswerRecord := []
  follow_up_count : Nat := 0
  max_follow_ups : Nat := 3
  status : String := "active"
  custom_data : CustomData := {}
deriving Repr, DecidableEq

/-- `BaseWorkflow.load_or_create_state` when no state exists yet: fresh
state with index 0, empty answers, `status="active"`. -/
def freshState (ub_id block_id : Nat) (specifications : List Question) : WorkflowState :=
  { ub_id := ub_id, block_id := block_id, questions := specifications,
    current_question_index := 0, answers := [], follow_up_count := 0,
    status := "active" }

/-- Evaluation criterion dict (`{criterion_name, max_points,
summary_instructions, grading_instructions}`). -/
structure Criterion where
  criterion_name : Option String := none
  max_points : Option Nat := none
  summary_instructions : Option String := none
  grading_instructions : Option String := none
deriving Repr, DecidableEq

/-- `BaseWorkflow._calculate_total_points`. -/
def calculate_total_points (criteria : List Criterion) : Nat :=
  criteria.foldl (fun total crit => total + crit.max_points.getD 0) 0

/-- Truthiness of a Python dict modelled as an all-optional structure
(`{}` is falsy). -/
def recTruthy (r : AnswerRecord) : Bool := r ≠ ({} : AnswerRecord)

/-- Truthiness of an evaluation dict (`if evaluation:`). -/
def evalTruthy (d : EvalDict) : Bool := d ≠ ({} : EvalDict)

/-- In-place mutation of `answers[-1]` (Python `state.answers[-1][k] = v`). -/
def updateLast (f : AnswerRecord → AnswerRecord) : List AnswerRecord → List AnswerRecord
  | [] => []
  | [a] => [f a]
  | a :: b :: rest => a :: updateLast f (b :: rest)

/-- Number of records carrying `graded == True`. -/
def gradedCount (l : List AnswerRecord) : Nat :=
  (l.filter (fun r => r.graded = some true)).length

/-! ## Examination workflow (src/workflows/examination.py, `run_workflow`)

The interviewer and evaluator are generation-service calls: one invocation
makes at most one interviewer call (output `interviewer_out`) and at most
one evaluator call (structured output `ev`), so both are oracle
arguments. -/

/-- Structured output of the examination evaluator agent. -/
structure ExamEval where
  complete : Bool
  missing_concepts : List String
  needs_clarification : Bool
deriving Repr, DecidableEq

/-- `eval_result.final_output.model_dump()`. -/
def examEvalDict (e : ExamEval) : EvalDict :=
  { complete := some e.complete, missing_concepts := some e.missing_concepts,
    needs_clarification := some e.needs_clarification }

/-- The record appended when the interviewer asks question `idx`. -/
def newExamRecord (idx : Nat) (now : String) : AnswerRecord :=
  { question_index := some idx, answer := some "", timestamp := some now,
    evaluation := some {} }

/-- Guard of the ask-a-question branch:
`not state.answers or state.answers[-1].get('evaluation', {}).get('complete', False)`. -/
def examAskBranch (s : WorkflowState) : Bool :=
  match s.answers.getLast? with
  | none => true
  | some r => ((r.evaluation.getD {}).complete).getD false

def examStep (s : WorkflowState) (user_message now interviewer_out : String)
    (ev : ExamEval) : WorkflowState × String :=
  if s.status = "finished" then (s, "Іспит вже завершено.")
  else if s.questions.length ≤ s.current_question_index then
    ({ s with status := "finished" },
     "Вітаю! Ви відповіли на всі питання. Іспит завершено.")
  else if examAskBranch s then
    ({ s with answers := s.answers ++ [newExamRecord s.current_question_index now],
              follow_up_count := 0 }, interviewer_out)
  else
    let answers1 := updateLast
      (fun r => { r with answer := some user_message, timestamp := some now,
                         evaluation := some (examEvalDict ev) }) s.answers
    if ev.complete then
      if s.questions.length ≤ s.current_question_index + 1 then
        ({ s with answers := answers1,
                  current_question_index := s.current_question_index + 1,
                  follow_up_count := 0, status := "finished" },
         "Вітаю! Ви відповіді на всі питання. Іспит завершено.")
      else
        ({ s with answers := answers1 ++ [newExamRecord (s.current_question_index + 1) now],
                  current_question_index := s.current_question_index + 1,
                  follow_up_count := 0 }, interviewer_out)
    else if s.max_follow_ups ≤ s.follow_up_count then
      if s.questions.length ≤ s.current_question_index + 1 then
        ({ s with answers := answers1,
                  current_question_index := s.current_question_index + 1,
                  follow_up_count := 0, status := "finished" }, "Іспит завершено.")
      else
        ({ s with answers := answers1 ++ [newExamRecord (s.current_question_index + 1) now],
                  current_question_index := s.current_question_index + 1,
                  follow_up_count := 0 }, interviewer_out)
    else
      ({ s with answers := answers1, follow_up_count := s.follow_up_count + 1 },
       interviewer_out)

/-! ## FillGaps workflow (src/workflows/fill_gaps.py, `run_workflow_stream`)

The returned string is the concatenation of all yielded chunks. -/

/-- Structured output of the fill-gaps evaluator agent. -/
structure GapsEval where
  all_correct : Bool
  errors : List String
  feedback : String
deriving Repr, DecidableEq

def gapsEvalDict (e : GapsEval) : EvalDict :=
  { all_correct := some e.all_correct, errors := some e.errors,
    feedback := some e.feedback }

def question_indicators : List String :=
  ["?", "what", "how", "why", "could you", "can you", "explain", "help",
   "don\x27t understand", "unclear", "confused"]

def short_response_indicators : List String :=
  ["ok", "okay", "thanks", "got it", "understand", "yes", "no", "wait"]

/-- The fresh (ungraded, waiting) assignment record FillGaps appends. -/
def newGapRecord (idx : Nat) (assignment now : String) : AnswerRecord :=
  { assignment_index := some idx, assignment := some assignment,
    answer := some "", timestamp := some now, graded := some false,
    waiting_for_answer := some true, user_message := some "",
    tutor_response := some "" }

/-- `self._format_feedback(evaluation, student_answer)` (the second argument
is unused by the source body). -/
def format_feedback (evaluation : EvalDict) (_student_answer : String) : String :=
  if evaluation.all_correct.getD false then "✅ Excellent! All answers are correct."
  else
    String.intercalate "\n"
      (["Let me check your answers:\n"] ++
       (evaluation.errors.getD []).map (fun e => "❌ " ++ e) ++
       ["\n" ++ evaluation.feedback.getD ""])

/-- `if last_answer and last_answer.get('waiting_for_answer'):` on
`answers[-1] if answers else {}`. -/
def waitingAnswerBranch (s : WorkflowState) : Bool :=
  match s.answers.getLast? with
  | none => false
  | some r => recTruthy r && r.waiting_for_answer.getD false

def is_question_msg (indicators : List String) (student_message : String) : Bool :=
  indicators.any (fun i => pyIn i (pyLower student_message))

def is_short_response_msg (student_message : String) : Bool :=
  decide ((pyWords student_message).length ≤ 3) &&
    short_response_indicators.any (fun i => pyIn i (pyLower student_message))

def fillGapsStep (specifications : List (List (String × String)))
    (s : WorkflowState) (user_message now tutor_out : String) (ev : GapsEval) :
    WorkflowState × String :=
  let _specs := specifications.headD []
  if s.status = "finished" then (s, "Assignments завершено. Дякую за роботу!")
  else if 10 ≤ s.current_question_index then
    ({ s with status := "finished" },
     "You have completed 10 assignments. Excellent work! The test is finished.")
  else if waitingAnswerBranch s then
    let student_message := pyStrip user_message
    if is_question_msg question_indicators student_message ||
       is_short_response_msg student_message then
      let answers1 := updateLast
        (fun r => { r with user_message := some user_message,
                           tutor_response := some tutor_out }) s.answers
      ({ s with answers := answers1 }, tutor_out)
    else
      let answers1 := updateLast
        (fun r => { r with answer := some user_message, timestamp := some now,
                           waiting_for_answer := some false,
                           evaluation := some (gapsEvalDict ev),
                           graded := some true }) s.answers
      if 10 ≤ s.current_question_index + 1 then
        ({ s with answers := answers1,
                  current_question_index := s.current_question_index + 1,
                  status := "finished" },
         format_feedback (gapsEvalDict ev) user_message ++
           "\n\n🎉 You have completed all 10 assignments. Excellent work! The test is finished.")
      else
        ({ s with answers := answers1 ++ [newGapRecord (s.current_question_index + 1) tutor_out now],
                  current_question_index := s.current_question_index + 1 },
         tutor_out)
  else
    ({ s with answers := s.answers ++ [newGapRecord s.current_question_index tutor_out now] },
     tutor_out)

/-! ## Roleplay workflow (src/workflows/roleplay.py) -/

def keywords_progress : List String :=
  ["чудово", "добре", "правильно", "згоден", "зрозумів",
   "наступний", "тепер", "переходимо", "good", "great", "correct", "next"]

def completion_phrases : List String :=
  ["завершено", "підсумок", "дякую за сесію", "це все",
   "completed", "finished", "that concludes", "thank you for",
   "на цьому завершуємо", "це завершує нашу розмову"]

def confirmation_words : List String :=
  ["зрозумів", "зрозуміла", "дякую", "так", "готов", "готова",
   "finished", "understood"]

/-- Separator class `[–\-\s]` of the turn-count pattern. -/
def isSepChar (c : Char) : Bool := c = '–' || c = '-' || isPySpace c

/-- The unit alternation `(хвилин|turns?|exchanges?)`, in source order,
greedy on the optional `s`; returns the matched text (`group(2)`). -/
def matchUnit (cs : List Char) : Option (List Char) :=
  match dropLit "хвилин".data cs with
  | some _ => some "хвилин".data
  | none =>
    match dropLit "turn".data cs with
    | some r => some (if leadsWith "s".data r then "turns".data else "turn".data)
    | none =>
      match dropLit "exchange".data cs with
      | some r => some (if leadsWith "s".data r then "exchanges".data else "exchange".data)
      | none => none

/-- Match `(\d+)[–\-\s]*(хвилин|turns?|exchanges?)` at the current
position. -/
def matchTurnsAt (cs : List Char) : Option (Nat × List Char) :=
  let (ds, r) := takeDigits cs
  if ds.isEmpty then none
  else
    match matchUnit (r.dropWhile isSepChar) with
    | some unit => some (digitsToNat ds, unit)
    | none => none

/-- `re.search(r'(\d+)[–\-\s]*(хвилин|turns?|exchanges?)', conditions.lower())`. -/
def searchTurns (conditions : String) : Option (Nat × List Char) :=
  searchFrom matchTurnsAt (pyLower conditions).data

/-- The `max_turns` computation of `_check_finish_conditions`: default 20;
a minutes count converts to `max(n*2, 10)`; a turn/exchange count is used
directly. -/
def max_turns_of (conditions : String) : Nat :=
  match searchTurns conditions with
  | some (number, unit) =>
    if pyIn "хвилин" (String.mk unit) then max (number * 2) 10 else number
  | none => 20

/-- Condition (b): the latest response contains a completion phrase. -/
def completionHit (last_response : String) : Bool :=
  completion_phrases.any (fun p => pyIn p (pyLower last_response))

/-- Condition (c): the configured text references a student confirmation
phrase and one of the last 3 student messages contains a confirmation
keyword. -/
def confirmHit (answers : List AnswerRecord) (conditions : String) : Bool :=
  let conditions_lower := pyLower conditions
  if pyIn "finished" conditions_lower || pyIn "phrase" conditions_lower then
    if pyIn "student" conditions_lower &&
       (["підтверд", "скаж", "фраз"].any (fun p => pyIn p conditions_lower)) then
      let last_answers := (pyLastN 3 answers).map (fun a => pyLower (a.user_message.getD ""))
      last_answers.any (fun a => confirmation_words.any (fun w => pyIn w a))
    else false
  else false

/-- Condition (d): the last 3 agent responses share an identical
first-50-character slice (`len(set(resp[:50] ...)) <= 1`). -/
def stallHit (answers : List AnswerRecord) : Bool :=
  decide ((((pyLastN 3 answers).map
    (fun a => (a.agent_response.getD "").data.take 50)).dedup).length ≤ 1)

/-- `RoleplayWorkflow._check_finish_conditions` (the Python method takes the
state and reads only `state.answers`, passed here directly). -/
def check_finish_conditions (answers : List AnswerRecord)
    (conditions last_response : String) : Bool :=
  if conditions = "" then false
  else if answers.length < 3 then false
  else if max_turns_of conditions ≤ answers.length then true
  else if completionHit last_response then true
  else if confirmHit answers conditions then true
  else if 5 ≤ answers.length && stallHit answers then true
  else false

/-- `RoleplayWorkflow._update_progress_tracking`: note that `len(state.answers)`
is read after the current turn's record has been appended. -/
def update_progress_tracking (s : WorkflowState) (_user_message agent_response : String) :
    WorkflowState :=
  if keywords_progress.any (fun k => pyIn k (pyLower agent_response)) then
    let progress_notes := s.custom_data.progress_notes.getD []
    let appended := progress_notes ++ ["Turn " ++ Nat.repr s.answers.length ++ ": Progress made"]
    { s with custom_data := { s.custom_data with progress_notes := some (pyLastN 10 appended) } }
  else s

/-- `RoleplayWorkflow.run_workflow_stream`; `agent_out` is the concatenation
of the streamed chunks of the single generation call. -/
def roleplayStep (specifications : List (List (String × String)))
    (s : WorkflowState) (user_message now agent_out : String) :
    WorkflowState × String :=
  let specs := specifications.headD []
  if s.status = "finished" then (s, "Role-play завершено. Дякую за участь!")
  else
    let s1 :=
      if (s.custom_data.progress_notes.getD []).isEmpty then
        { s with custom_data := { s.custom_data with progress_notes := some [] } }
      else s
    let record : AnswerRecord :=
      { user_message := some user_message, agent_response := some agent_out,
        timestamp := some now, turn := some (s1.answers.length + 1) }
    let s2 := { s1 with answers := s1.answers ++ [record] }
    let s3 := update_progress_tracking s2 user_message agent_out
    let finish_conditions := dictGet specs "finish_dialogue_conditions" ""
    if check_finish_conditions s3.answers finish_conditions agent_out then
      ({ s3 with status := "finished" }, agent_out)
    else (s3, agent_out)

/-! ## Reflection workflow (src/workflows/reflection.py) -/

/-- `if not state.custom_data.get('phase'):` — absent or empty string. -/
def phaseFalsy (cd : CustomData) : Bool := (cd.phase.getD "").isEmpty

/-- The student stop phrases of `_update_phase_and_data`. -/
def stop_requested (user_message : String) : Bool :=
  pyIn "завершуй" (pyLower user_message) || pyIn "закінчи" (pyLower user_message)

/-- Append the student message to a phase's `responses` list
(`data['responses'] = data.get('responses', []); append`). -/
def phaseAddResponse (p : PhaseData) (user_message : String) : PhaseData :=
  if user_message ≠ "" then
    { p with responses := some ((p.responses.getD []) ++ [user_message]) }
  else p

/-- First section of `_update_phase_and_data` (the `if phase == ...` chain):
`phase` is the value read once at entry. -/
def reflPhaseUpdate (s : WorkflowState) (phase user_message response_lower : String) :
    WorkflowState :=
  if phase = "aspiration" then
    let aspiration := phaseAddResponse (s.custom_data.aspiration.getD {}) user_message
    if pyIn "перейдемо до" response_lower && pyIn "сильних сторін" response_lower then
      { s with custom_data := { s.custom_data with
          aspiration := some { aspiration with completed := some true },
          phase := some "strengths" } }
    else
      { s with custom_data := { s.custom_data with aspiration := some aspiration } }
  else if phase = "strengths" then
    let strengths := phaseAddResponse (s.custom_data.strengths.getD {}) user_message
    if pyIn "наступні кроки" response_lower || pyIn "визначимо конкретні" response_lower then
      { s with custom_data := { s.custom_data with
          strengths := some { strengths with completed := some true },
          phase := some "feed_forward" } }
    else
      { s with custom_data := { s.custom_data with strengths := some strengths } }
  else if phase = "feed_forward" then
    let feed_forward := phaseAddResponse (s.custom_data.feed_forward.getD {}) user_message
    if pyIn "підсумок" response_lower || pyIn "продуктивну сесію" response_lower then
      { s with custom_data := { s.custom_data with
          feed_forward := some { feed_forward with completed := some true },
          phase := some "summary" } }
    else
      { s with custom_data := { s.custom_data with feed_forward := some feed_forward } }
  else if phase = "summary" then { s with status := "finished" }
  else s

/-- Second section: the timebox fallback, still keyed on the entry-time
`phase`. -/
def reflTimeboxUpdate (s1 : WorkflowState) (phase timebox : String) : WorkflowState :=
  if pyIn "10" timebox && 8 ≤ s1.answers.length then
    if phase ≠ "summary" && phase ≠ "finished" then
      { s1 with custom_data := { s1.custom_data with phase := some "summary" } }
    else s1
  else if pyIn "20" timebox && 15 ≤ s1.answers.length then
    if phase ≠ "summary" && phase ≠ "finished" then
      { s1 with custom_data := { s1.custom_data with phase := some "summary" } }
    else s1
  else s1

/-- Third section: the explicit student stop phrases. -/
def reflStopUpdate (s2 : WorkflowState) (user_message : String) : WorkflowState :=
  if stop_requested user_message then
    { s2 with custom_data := { s2.custom_data with phase := some "summary" } }
  else s2

/-- `ReflectionWorkflow._update_phase_and_data`.  `phase` is read once at
entry; the timebox fallback and the student stop phrases run afterwards
against that same (old) value. -/
def update_phase_and_data (s : WorkflowState) (user_message coach_response : String)
    (specs : List (String × String)) : WorkflowState :=
  let phase := s.custom_data.phase.getD "aspiration"
  let response_lower := pyLower coach_response
  let s1 := reflPhaseUpdate s phase user_message response_lower
  let s2 := reflTimeboxUpdate s1 phase (dictGet specs "timebox" "")
  reflStopUpdate s2 user_message

/-- `ReflectionWorkflow.run_workflow_stream`; `coach_out` is the
concatenation of the streamed chunks of the single generation call. -/
def reflectionStep (specifications : List (List (String × String)))
    (s : WorkflowState) (user_message now coach_out : String) :
    WorkflowState × String :=
  let specs := specifications.headD []
  if s.status = "finished" then (s, "Reflection session завершено. Дякую!")
  else
    let s1 :=
      if phaseFalsy s.custom_data then
        { s with custom_data := { s.custom_data with
            phase := some "aspiration", aspiration := some {},
            strengths := some {}, feed_forward := some {} } }
      else s
    let record : AnswerRecord :=
      { user_message := some user_message, coach_response := some coach_out,
        timestamp := some now, phase := some (s1.custom_data.phase.getD "aspiration") }
    let s2 := { s1 with answers := s1.answers ++ [record] }
    let s3 := update_phase_and_data s2 user_message coach_out specs
    (s3, coach_out)

/-! ## Custom workflow (src/workflows/custom.py, `run_workflow`) -/

def customStep (s : WorkflowState) (user_message now assistant_out : String) :
    WorkflowState × String :=
  if s.status = "finished" then (s, "Чат завершено.")
  else
    let record : AnswerRecord :=
      { user_message := some user_message, assistant_response := some assistant_out,
        timestamp := some now }
    ({ s with answers := s.answers ++ [record] }, assistant_out)

/-! ## Analogous workflow (src/workflows/analogous.py, `run_workflow`)

One invocation makes at most one tutor call (`tutor_out`) and at most one
evaluator call (`ev`). -/

structure AnalogousEval where
  correct : Bool
  errors : List String
  feedback : String
deriving Repr, DecidableEq

def analogousEvalDict (e : AnalogousEval) : EvalDict :=
  { correct := some e.correct, errors := some e.errors, feedback := some e.feedback }

def analogous_question_indicators : List String :=
  ["?", "what", "how", "why", "could you", "can you", "explain", "help",
   "don\x27t understand", "unclear", "confused", "mean", "clarify",
   "не розумію", "поясни", "що", "як", "чому", "допоможи", "розкажи",
   "не зрозумів", "не зрозуміла", "шо", "допоможіть", "підкажи"]

/-- The record appended on the topic-negotiation first turn. -/
def firstAnalogousRecord (now : String) : AnswerRecord :=
  { assignment_index := some 0, topic := some "", assignment := some "",
    answer := some "", timestamp := some now, graded := some false,
    waiting_for_topic := some true, user_message := some "",
    tutor_response := some "" }

/-- The fresh assignment record Analogous appends after grading. -/
def newAnalogousRecord (idx : Nat) (topic assignment now : String) : AnswerRecord :=
  { assignment_index := some idx, topic := some topic, assignment := some assignment,
    answer := some "", timestamp := some now, graded := some false,
    waiting_for_answer := some true, user_message := some "",
    tutor_response := some "" }

/-- `answer_length < assignment_length * 0.3` on word counts, taken at the
exact rational value of `0.3` (the CPython binary-float for `0.3` differs
from `3/10` by less than `2e-17`, which cannot flip the comparison for the
word counts of any realistic assignment). -/
def seems_incomplete_msg (assignment student_message : String) : Bool :=
  decide (10 * (pyWords student_message).length < 3 * (pyWords assignment).length)

def analogousStep (specifications : List (List (String × String)))
    (s : WorkflowState) (user_message now tutor_out : String) (ev : AnalogousEval) :
    WorkflowState × String :=
  let _specs := specifications.headD []
  if s.status = "finished" then (s, "Assignments завершено. Дякую за роботу!")
  else if s.answers.length = 0 then
    let base := s.answers ++ [firstAnalogousRecord now]
    let answers1 := updateLast (fun r => { r with assignment := some tutor_out }) base
    ({ s with answers := answers1 }, tutor_out)
  else
    let last_answer := (s.answers.getLast?).getD {}
    if last_answer.waiting_for_topic.getD false then
      let topic := pyStrip user_message
      if decide ((pyWords topic).length ≤ 2) || pyIn "?" topic then
        let answers1 := updateLast
          (fun r => { r with user_message := some user_message,
                             tutor_response := some tutor_out }) s.answers
        ({ s with answers := answers1 }, tutor_out)
      else
        let answers1 := updateLast
          (fun r => { r with topic := some topic, waiting_for_topic := some false,
                             waiting_for_answer := some true,
                             assignment := some tutor_out }) s.answers
        ({ s with answers := answers1 }, tutor_out)
    else if recTruthy last_answer && last_answer.waiting_for_answer.getD false then
      let student_message := pyStrip user_message
      if is_question_msg analogous_question_indicators student_message ||
         is_short_response_msg student_message ||
         seems_incomplete_msg (last_answer.assignment.getD "") student_message then
        let answers1 := updateLast
          (fun r => { r with user_message := some user_message,
                             tutor_response := some tutor_out }) s.answers
        ({ s with answers := answers1 }, tutor_out)
      else
        let answers1 := updateLast
          (fun r => { r with answer := some user_message, timestamp := some now,
                             waiting_for_answer := some false,
                             evaluation := some (analogousEvalDict ev),
                             graded := some true }) s.answers
        let topic := ((s.answers.headD {}).topic).getD ""
        let answers2 := answers1 ++
          [newAnalogousRecord (s.current_question_index + 1) topic tutor_out now]
        ({ s with answers := answers2,
                  current_question_index := s.current_question_index + 1 }, tutor_out)
    else
      let topic := if s.answers.length ≠ 0 then ((s.answers.headD {}).topic).getD "" else ""
      ({ s with answers := s.answers ++
           [newAnalogousRecord s.current_question_index topic tutor_out now] }, tutor_out)

/-! ## Evaluation pipeline (the `run_evaluation` of each workflow)

Each routine assembles one instruction document and issues exactly one
generation call with it; the service is the oracle `gen : String → String`
and the returned report is `gen doc` stripped (`final_output_as(str).strip()`).
The document builders below transcribe the `agent_instructions` closures. -/

/-- `'='*60`. -/
def eqLine : String := String.mk (List.replicate 60 '=')

/-- Python `repr` of a bool inside an f-string. -/
def pyBoolRepr (b : Bool) : String := if b then "True" else "False"

/-- Concatenate `f i x` over a list with a running index (`enumerate`). -/
def enumConcat {α : Type} (f : Nat → α → String) : Nat → List α → String
  | _, [] => ""
  | i, x :: rest => f i x ++ enumConcat f (i + 1) rest

/-- Examination criteria block (examination.py, lines 221-231). -/
def examCriterionText (i : Nat) (crit : Criterion) : String :=
  "\n## Criterion " ++ Nat.repr (i + 1) ++
  (if truthyOptStr crit.criterion_name then ": " ++ crit.criterion_name.getD "" else "") ++
  "\nMax Points: " ++ Nat.repr (crit.max_points.getD 0) ++ "\n" ++
  (if truthyOptStr crit.summary_instructions then
     "Summary Instructions: " ++ crit.summary_instructions.getD "" ++ "\n" else "") ++
  (if truthyOptStr crit.grading_instructions then
     "Grading Instructions: " ++ crit.grading_instructions.getD "" ++ "\n" else "") ++
  "\n"

/-- Examination conversation block for one answer record (lines 233-256). -/
def examConversationItem (questions : List Question) (i : Nat) (ans : AnswerRecord) : String :=
  let q_index := ans.question_index.getD i
  match questions.get? q_index with
  | none => ""
  | some question =>
    let evaluation := ans.evaluation.getD {}
    "\n" ++ eqLine ++ "\n" ++ "Exchange " ++ Nat.repr (i + 1) ++ ":\n" ++ eqLine ++ "\n\n" ++
    "**Question:** " ++ question.question.getD "N/A" ++ "\n" ++
    "**Expected key concepts:** " ++ question.key_concepts.getD "N/A" ++ "\n\n" ++
    "**Student answer:** " ++ ans.answer.getD "No answer provided" ++ "\n\n" ++
    (if evalTruthy evaluation then
      "**Workflow evaluation:**\n" ++
      "  - Answer was complete: " ++ pyBoolRepr (evaluation.complete.getD false) ++ "\n" ++
      (if ¬ (evaluation.missing_concepts.getD []).isEmpty then
        "  - Missing concepts: " ++ String.intercalate ", " (evaluation.missing_concepts.getD []) ++ "\n"
       else "") ++
      (if evaluation.needs_clarification.getD false then
        "  - Needed clarification: " ++ pyBoolRepr (evaluation.needs_clarification.getD false) ++ "\n"
       else "")
     else "") ++
    "\n"

/-- The examination evaluation instruction document (lines 258-295). -/
def examEvalDoc (ws : WorkflowState) (eval_instructions : String)
    (criteria : List Criterion) : String :=
  let total_max_points := calculate_total_points criteria
  let criteria_text := enumConcat examCriterionText 0 criteria
  let conversation_text := enumConcat (examConversationItem ws.questions) 0 ws.answers
  "You are an evaluation assistant for an educational platform.\n\n" ++
  eval_instructions ++ "\n\n# Conversation History\n" ++ conversation_text ++
  "\n\n# Evaluation Criteria\n" ++ criteria_text ++
  "\n\n# Your Task\n\nEvaluate the student\x27s performance according to the provided criteria.\n\n" ++
  "For each criterion:\n1. Review the student\x27s answers and the workflow evaluation results\n" ++
  "2. Assess how well they met the criterion\n3. Assign a grade (0 to max_points for that criterion)\n" ++
  "4. Provide clear reasoning\n\nFormat your response as:\n\n# Evaluation Report\n\n" ++
  "## Criterion 1: [Name]\n**Assessment:** [Detailed assessment based on answers]\n" ++
  "**Grade:** X/Y points\n**Reasoning:** [Why this grade was assigned]\n\n" ++
  "## Criterion 2: [Name]\n**Assessment:** [Detailed assessment]\n" ++
  "**Grade:** X/Y points\n**Reasoning:** [Explanation]\n\n# Summary\n" ++
  "**Total Score:** X/" ++ Nat.repr total_max_points ++ " points\n" ++
  "**Overall Performance:** [Brief summary]\n" ++
  "**Recommendations:** [Optional suggestions for improvement]"

/-- `ExaminationWorkflow.run_evaluation`. -/
def examRunEvaluation (gen : String → String) (_ub_id : Nat)
    (workflow_state : WorkflowState) (eval_instructions : String)
    (criteria : List Criterion) (_model : String) : String :=
  pyStrip (gen (examEvalDoc workflow_state eval_instructions criteria))

/-- FillGaps / Analogous criteria block (fill_gaps.py lines 372-381,
analogous.py lines 457-466: identical text). -/
def gapsCriterionText (i : Nat) (crit : Criterion) : String :=
  "\n## Criterion " ++ Nat.repr (i + 1) ++
  (if truthyOptStr crit.criterion_name then ": " ++ crit.criterion_name.getD "" else "") ++
  "\n**Max Points:** " ++ Nat.repr (crit.max_points.getD 0) ++ "\n" ++
  (if truthyOptStr crit.summary_instructions then
     "**Summary Instructions:** " ++ crit.summary_instructions.getD "" ++ "\n" else "") ++
  (if truthyOptStr crit.grading_instructions then
     "**Grading Instructions:** " ++ crit.grading_instructions.getD "" ++ "\n" else "")

/-- A record counts as a completed assignment when its `answer` is a
nonempty string (`if answer_text:`). -/
def gapCompleted (a : AnswerRecord) : Bool := ¬ (a.answer.getD "").isEmpty

def completedCount (l : List AnswerRecord) : Nat := (l.filter gapCompleted).length

/-- FillGaps: completed and judged all-correct. -/
def gapAllCorrect (a : AnswerRecord) : Bool :=
  evalTruthy (a.evaluation.getD {}) && (a.evaluation.getD {}).all_correct.getD false

/-- Analogous: completed and judged correct. -/
def gapCorrect (a : AnswerRecord) : Bool :=
  evalTruthy (a.evaluation.getD {}) && (a.evaluation.getD {}).correct.getD false

/-- One completed-assignment block (fill_gaps.py lines 342-367); `correctKey`
selects the structured-output key (`all_correct` for FillGaps, `correct` for
Analogous). -/
def gapsAssignmentItem (correctKey : EvalDict → Bool) (i : Nat) (ans : AnswerRecord) : String :=
  if ¬ gapCompleted ans then ""
  else
    let evaluation := ans.evaluation.getD {}
    "\n" ++ eqLine ++ "\n" ++ "Assignment " ++ Nat.repr (ans.assignment_index.getD i + 1) ++
    ":\n" ++ eqLine ++ "\n\n" ++
    "**Task:** " ++ ans.assignment.getD "N/A" ++ "\n\n" ++
    "**Student Answer:** " ++ ans.answer.getD "" ++ "\n\n" ++
    (if evalTruthy evaluation then
      (if correctKey evaluation then "**Result:** ✅ All correct\n"
       else
        "**Result:** ❌ Has errors\n" ++
        (if ¬ (evaluation.errors.getD []).isEmpty then
          "**Errors:**\n" ++
          String.join ((evaluation.errors.getD []).map (fun e => "  - " ++ e ++ "\n"))
         else "")) ++
      (if truthyOptStr evaluation.feedback then
        "**Feedback:** " ++ evaluation.feedback.getD "" ++ "\n" else "")
     else "**Result:** ⚠️ Not yet evaluated\n") ++
    "\n"

/-- The fixed instruction document substituted when no assignment has been
completed (fill_gaps.py lines 369-370, analogous.py lines 454-455). -/
def noCompletedMsg : String :=
  "No completed assignments found. The student hasn\x27t provided any answers yet."

/-- The shared tail of the FillGaps/Analogous evaluation document
(fill_gaps.py lines 383-428, analogous.py lines 468-513: identical text). -/
def gapsEvalDocOf (correctKey : EvalDict → Bool) (ws : WorkflowState)
    (eval_instructions : String) (criteria : List Criterion) : String :=
  let total_max_points := calculate_total_points criteria
  let completed_count := completedCount ws.answers
  let correct_count := (ws.answers.filter (fun a => gapCompleted a && correctKey (a.evaluation.getD {}))).length
  let assignments_text := enumConcat (gapsAssignmentItem correctKey) 0 ws.answers
  let criteria_text := enumConcat gapsCriterionText 0 criteria
  if completed_count = 0 then noCompletedMsg
  else
    eval_instructions ++ "\n\n# Summary Statistics\n" ++
    "- Total assignments completed: " ++ Nat.repr completed_count ++ "\n" ++
    "- Assignments with all correct answers: " ++ Nat.repr correct_count ++ "\n" ++
    "- Accuracy rate: " ++
    (if 0 < completed_count then fmt1fRatio correct_count completed_count else "0.0") ++
    "%\n\n# Completed Assignments\n" ++ assignments_text ++
    "\n\n# Evaluation Criteria\n" ++ criteria_text ++
    "\n\n# Your Task\nBased on the assignments above and the evaluation criteria, " ++
    "provide a comprehensive evaluation of the student\x27s English performance.\n\n" ++
    "Focus on:\n1. Grammar accuracy\n2. Vocabulary usage\n3. Understanding of the learning goal\n" ++
    "4. Overall progress and patterns in errors\n\nFor each criterion:\n1. Review the assignments\n" ++
    "2. Assess how well the student met the criterion\n3. Assign a grade (0 to max_points for that criterion)\n" ++
    "4. Provide clear reasoning with specific examples\n\nFormat your response as:\n\n# Evaluation Report\n\n" ++
    "## Criterion 1: [Name]\n**Assessment:** [Detailed assessment with examples]\n" ++
    "**Grade:** X/Y points\n**Reasoning:** [Why this grade was assigned]\n\n" ++
    "## Criterion 2: [Name]\n**Assessment:** [Detailed assessment]\n" ++
    "**Grade:** X/Y points\n**Reasoning:** [Explanation]\n\n# Summary\n" ++
    "**Total Score:** X/" ++ Nat.repr total_max_points ++ " points\n" ++
    "**Overall Performance:** [Brief summary]\n**Recommendations:** [Optional suggestions]"

def fillGapsEvalDoc (ws : WorkflowState) (eval_instructions : String)
    (criteria : List Criterion) : String :=
  gapsEvalDocOf (fun d => d.all_correct.getD false) ws eval_instructions criteria

def analogousEvalDoc (ws : WorkflowState) (eval_instructions : String)
    (criteria : List Criterion) : String :=
  gapsEvalDocOf (fun d => d.correct.getD false) ws eval_instructions criteria

/-- `FillGapsWorkflow.run_evaluation`. -/
def fillGapsRunEvaluation (gen : String → String) (_ub_id : Nat)
    (workflow_state : WorkflowState) (eval_instructions : String)
    (criteria : List Criterion) (_model : String) : String :=
  pyStrip (gen (fillGapsEvalDoc workflow_state eval_instructions criteria))

/-- `AnalogousWorkflow.run_evaluation`. -/
def analogousRunEvaluation (gen : String → String) (_ub_id : Nat)
    (workflow_state : WorkflowState) (eval_instructions : String)
    (criteria : List Criterion) (_model : String) : String :=
  pyStrip (gen (analogousEvalDoc workflow_state eval_instructions criteria))

/-- Roleplay / Reflection / Custom criteria block (roleplay.py lines
206-215, reflection.py lines 322-331: identical; custom.py lines 99-109
adds a trailing blank line, passed via `trailing`). -/
def shortCriterionText (trailing : String) (i : Nat) (crit : Criterion) : String :=
  "\n## Criterion " ++ Nat.repr (i + 1) ++
  (if truthyOptStr crit.criterion_name then ": " ++ crit.criterion_name.getD "" else "") ++
  "\nMax Points: " ++ Nat.repr (crit.max_points.getD 0) ++ "\n" ++
  (if truthyOptStr crit.summary_instructions then
     "Summary: " ++ crit.summary_instructions.getD "" ++ "\n" else "") ++
  (if truthyOptStr crit.grading_instructions then
     "Grading: " ++ crit.grading_instructions.getD "" ++ "\n" else "") ++
  trailing

/-- The shared report-format tail of the roleplay/reflection/custom
documents. -/
def reportFormatTail : String :=
  "Format your response as:\n\n# Evaluation Report\n\n" ++
  "## Criterion 1: [Name]\n**Assessment:** [Detailed assessment]\n" ++
  "**Grade:** X/Y points\n**Reasoning:** [Why this grade was assigned]\n\n" ++
  "## Criterion 2: [Name]\n**Assessment:** [Detailed assessment]\n" ++
  "**Grade:** X/Y points\n**Reasoning:** [Explanation]\n\n# Summary\n"

/-- The roleplay evaluation instruction document (roleplay.py lines
203-263). -/
def roleplayEvalDoc (ws : WorkflowState) (eval_instructions : String)
    (criteria : List Criterion) : String :=
  let total_max_points := calculate_total_points criteria
  let criteria_text := enumConcat (shortCriterionText "") 0 criteria
  let conversation_text := enumConcat (fun i a =>
    "\n### Turn " ++ Nat.repr (a.turn.getD (i + 1)) ++ "\n" ++
    "**Student:** " ++ a.user_message.getD "N/A" ++ "\n" ++
    "**Agent:** " ++ a.agent_response.getD "N/A" ++ "\n\n") 0 ws.answers
  eval_instructions ++ "\n\n# Role-play Conversation\n" ++ conversation_text ++
  "\n\n# Evaluation Criteria\n" ++ criteria_text ++
  "\n\n# Additional Context\nTotal turns: " ++ Nat.repr ws.answers.length ++
  "\nStatus: " ++ ws.status ++
  "\n\n# Your Task\n\nEvaluate the student\x27s performance in the role-play based on the criteria.\n" ++
  "Consider both the quality of responses and whether the conversation progressed naturally without getting stuck.\n\n" ++
  "For each criterion:\n1. Review the role-play conversation\n2. Assess how well the student met the criterion\n" ++
  "3. Assign a grade (0 to max_points for that criterion)\n4. Provide clear reasoning\n\n" ++
  reportFormatTail ++
  "**Total Score:** X/" ++ Nat.repr total_max_points ++ " points\n" ++
  "**Overall Performance:** [Brief summary]\n**Recommendations:** [Optional suggestions]"

/-- `RoleplayWorkflow.run_evaluation`. -/
def roleplayRunEvaluation (gen : String → String) (_ub_id : Nat)
    (workflow_state : WorkflowState) (eval_instructions : String)
    (criteria : List Criterion) (_model : String) : String :=
  pyStrip (gen (roleplayEvalDoc workflow_state eval_instructions criteria))

/-! ### `json.dumps(..., ensure_ascii=False, indent=2)` for the Reflection
collected-data dicts.  Key order is insertion order: the source always
inserts `responses` before `completed`. -/

def hexDigitChar (n : Nat) : Char :=
  if n < 10 then Char.ofNat ('0'.toNat + n) else Char.ofNat ('a'.toNat + n - 10)

def jsonEscChar (c : Char) : String :=
  if c = '\\' then "\\\\"
  else if c = '\x22' then "\\\x22"
  else if c = '\n' then "\\n"
  else if c = '\t' then "\\t"
  else if c = '\x0d' then "\\r"
  else if c.toNat < 32 then
    "\\u00" ++ String.mk [hexDigitChar (c.toNat / 16), hexDigitChar (c.toNat % 16)]
  else String.singleton c

def jsonStr (s : String) : String :=
  "\x22" ++ String.join (s.data.map jsonEscChar) ++ "\x22"

/-- A JSON string list at nesting depth 1 with `indent=2`. -/
def jsonStrList (l : List String) : String :=
  if l.isEmpty then "[]"
  else "[\n    " ++ String.intercalate ",\n    " (l.map jsonStr) ++ "\n  ]"

/-- `json.dumps(phase_data, ensure_ascii=False, indent=2)`. -/
def jsonDumpsPhase (p : PhaseData) : String :=
  let entries : List String :=
    (match p.responses with
     | some l => ["\x22responses\x22: " ++ jsonStrList l]
     | none => []) ++
    (match p.completed with
     | some b => ["\x22completed\x22: " ++ (if b then "true" else "false")]
     | none => [])
  if entries.isEmpty then "\x7b\x7d"
  else "\x7b\n  " ++ String.intercalate ",\n  " entries ++ "\n\x7d"

/-- The reflection evaluation instruction document (reflection.py lines
319-389). -/
def reflectionEvalDoc (ws : WorkflowState) (eval_instructions : String)
    (criteria : List Criterion) : String :=
  let total_max_points := calculate_total_points criteria
  let criteria_text := enumConcat (shortCriterionText "") 0 criteria
  let conversation_text := enumConcat (fun i a =>
    "\n### Turn " ++ Nat.repr (i + 1) ++ " [" ++ pyUpper (a.phase.getD "unknown") ++ "]\n" ++
    "**Coachee:** " ++ a.user_message.getD "N/A" ++ "\n" ++
    "**Coach:** " ++ a.coach_response.getD "N/A" ++ "\n\n") 0 ws.answers
  let aspiration_data := ws.custom_data.aspiration.getD {}
  let strengths_data := ws.custom_data.strengths.getD {}
  let feed_forward_data := ws.custom_data.feed_forward.getD {}
  eval_instructions ++ "\n\n# Reflection Session\n" ++ conversation_text ++
  "\n\n# Collected Data\n## Aspiration\n" ++ jsonDumpsPhase aspiration_data ++
  "\n\n## Strengths\n" ++ jsonDumpsPhase strengths_data ++
  "\n\n## Feed-forward\n" ++ jsonDumpsPhase feed_forward_data ++
  "\n\n# Evaluation Criteria\n" ++ criteria_text ++
  "\n\n# Your Task\n\nEvaluate the reflection session based on ASF framework completeness and quality.\n\n" ++
  "For each criterion:\n1. Review the session conversation and collected data\n" ++
  "2. Assess how well the criterion was met\n3. Assign a grade (0 to max_points for that criterion)\n" ++
  "4. Provide clear reasoning\n\n" ++
  reportFormatTail ++
  "**Total Score:** X/" ++ Nat.repr total_max_points ++ " points\n" ++
  "**Overall Performance:** [Brief summary]\n**Recommendations:** [Optional suggestions]"

/-- `ReflectionWorkflow.run_evaluation`. -/
def reflectionRunEvaluation (gen : String → String) (_ub_id : Nat)
    (workflow_state : WorkflowState) (eval_instructions : String)
    (criteria : List Criterion) (_model : String) : String :=
  pyStrip (gen (reflectionEvalDoc workflow_state eval_instructions criteria))

/-- The custom-workflow evaluation instruction document (custom.py lines
96-154). -/
def customEvalDoc (ws : WorkflowState) (eval_instructions : String)
    (criteria : List Criterion) : String :=
  let total_max_points := calculate_total_points criteria
  let criteria_text := enumConcat (shortCriterionText "\n") 0 criteria
  let conversation_text := enumConcat (fun i a =>
    "\n" ++ eqLine ++ "\n" ++ "Exchange " ++ Nat.repr (i + 1) ++ ":\n" ++ eqLine ++ "\n\n" ++
    "**User:** " ++ a.user_message.getD "N/A" ++ "\n" ++
    "**Assistant:** " ++ a.assistant_response.getD "N/A" ++ "\n\n") 0 ws.answers
  eval_instructions ++ "\n\n# Conversation History\n" ++ conversation_text ++
  "\n\n# Evaluation Criteria\n" ++ criteria_text ++
  "\n\n# Your Task\n\nEvaluate the conversation based on the criteria provided.\n\n" ++
  "For each criterion:\n1. Review the conversation exchanges\n2. Assess how well the student met the criterion\n" ++
  "3. Assign a grade (0 to max_points for that criterion)\n4. Provide clear reasoning\n\n" ++
  reportFormatTail ++
  "**Total Score:** X/" ++ Nat.repr total_max_points ++ " points\n" ++
  "**Overall Performance:** [Brief summary]\n**Recommendations:** [Optional suggestions]"

/-- `CustomWorkflow.run_evaluation`. -/
def customRunEvaluation (gen : String → String) (_ub_id : Nat)
    (workflow_state : WorkflowState) (eval_instructions : String)
    (criteria : List Criterion) (_model : String) : String :=
  pyStrip (gen (customEvalDoc workflow_state eval_instructions criteria))

/-! ## Registry and the evaluate endpoint (src/workflows/__init__.py,
src/main.py `evaluate_chat`) -/

/-- `WORKFLOW_REGISTRY` template ids, in source order: Examination(12),
Custom(25), FillGaps(26), Roleplay(27), Reflection(28), Analogous(29). -/
def workflow_registry_ids : List Nat := [12, 25, 26, 27, 28, 29]

/-- Dispatch of `workflow.run_evaluation` by template id (`get_workflow_class`
resolved the class; the caller has already checked membership in the
registry, so the fallback branch is unreachable). -/
def run_evaluation_of (template_id : Nat) (gen : String → String) (ub_id : Nat)
    (workflow_state : WorkflowState) (eval_instructions : String)
    (criteria : List Criterion) (model : String) : String :=
  if template_id = 12 then
    examRunEvaluation gen ub_id workflow_state eval_instructions criteria model
  else if template_id = 25 then
    customRunEvaluation gen ub_id workflow_state eval_instructions criteria model
  else if template_id = 26 then
    fillGapsRunEvaluation gen ub_id workflow_state eval_instructions criteria model
  else if template_id = 27 then
    roleplayRunEvaluation gen ub_id workflow_state eval_instructions criteria model
  else if template_id = 28 then
    reflectionRunEvaluation gen ub_id workflow_state eval_instructions criteria model
  else if template_id = 29 then
    analogousRunEvaluation gen ub_id workflow_state eval_instructions criteria model
  else ""

/-- The chat-session record returned by `GET /ub/{ub_id}` (only the fields
the evaluate endpoint reads); `grade` is the numeric score previously stored
through `update_chat_status`. -/
structure ChatSession where
  block_id : Nat := 0
  status : Option String := none
  grade : Option ℚ := none
deriving DecidableEq

/-- Criteria payload of a block: either an already-structured list or a
serialized text blob. -/
inductive CritJson
  | lst (cs : List Criterion)
  | txt (raw : String)
deriving DecidableEq

/-- `criteria = block.get("eval_crit_json", []); if isinstance(criteria, str):
try json.loads except: []`.  `decode` is the oracle for the external
`json.loads` library call. -/
def parseCritJson (decode : String → Option (List Criterion)) : CritJson → List Criterion
  | .lst cs => cs
  | .txt raw => (decode raw).getD []

/-- The block record fields the evaluate endpoint reads. -/
structure BlockConfig where
  id : Nat := 0
  int_template_id : Nat := 0
  eval_instructions : Option String := none
  eval_crit_json : CritJson := .lst []
  model : Option String := none

/-- Python truthiness of `session.get('grade')` for a numeric grade:
`None` and `0` are falsy. -/
def truthyGrade (g : Option ℚ) : Bool :=
  match g with
  | none => false
  | some q => q ≠ 0

/-- The heterogeneous `evaluation` field of the endpoint's JSON response:
the cached branch returns the stored numeric grade, the fresh branch the
report text. -/
inductive EvalField
  | num (q : ℚ)
  | txt (s : String)
deriving DecidableEq

structure EvalChatResponse where
  evaluation : EvalField
  timestamp : String
  conversation_length : Nat
  criteria_count : Nat
  cached : Bool
  grade_saved : Option Bool := none
deriving DecidableEq

/-- Observable side effects of one call to the evaluate endpoint, in
execution order. -/
inductive EvalAction
  | resolve_workflow (template_id : Nat)
  | generation
  | update_status (status grade_text : Option String)
deriving DecidableEq

/-- `main.evaluate_chat`: on a truthy stored grade, return it as a cached
result immediately; otherwise validate configuration, resolve the workflow,
run its evaluation (one generation call) and persist grade + `finished`
status.  Errors are the HTTP status codes raised. -/
def evaluate_chat (gen : String → String) (decode : String → Option (List Criterion))
    (now : String) (ub_id : Nat) (session : ChatSession) (block : BlockConfig)
    (workflow_state : Option WorkflowState) (update_ok : Bool) :
    Except Nat (EvalChatResponse × List EvalAction) :=
  if truthyGrade session.grade then
    .ok ({ evaluation := .num (session.grade.getD 0), timestamp := now,
           conversation_length := 0, criteria_count := 0, cached := true }, [])
  else if ¬ truthyOptStr block.eval_instructions then .error 400
  else
    match workflow_state with
    | none => .error 404
    | some ws =>
      let criteria := parseCritJson decode block.eval_crit_json
      let template_id := block.int_template_id
      if template_id ∉ workflow_registry_ids then .error 400
      else
        let evaluation_text := run_evaluation_of template_id gen ub_id ws
          (block.eval_instructions.getD "") criteria (block.model.getD "gpt-4o")
        .ok ({ evaluation := .txt evaluation_text, timestamp := now,
               conversation_length := ws.answers.length,
               criteria_count := criteria.length, cached := false,
               grade_saved := some update_ok },
             [.resolve_workflow template_id, .generation,
              .update_status (some "finished") (some evaluation_text)])

/-! ## Reachability and invariants for the FillGaps cap -/

/-- States reachable by the FillGaps workflow: the freshly created state,
closed under invocations with arbitrary messages, timestamps and
generation-service outputs. -/
inductive FillGapsReach : WorkflowState → Prop
  | fresh (ub_id block_id : Nat) (specifications : List Question) :
      FillGapsReach (freshState ub_id block_id specifications)
  | step (s : WorkflowState) (specifications : List (List (String × String)))
      (user_message now tutor_out : String) (ev : GapsEval) :
      FillGapsReach s →
      FillGapsReach (fillGapsStep specifications s user_message now tutor_out ev).1

/-- Inductive invariant of the FillGaps loop: while active, the graded-record
count equals the assignment cursor and stays at or below 10, and a record
still waiting for an answer is never already graded; once finished, exactly
10 graded records exist. -/
def fillGapsInv (s : WorkflowState) : Prop :=
  if s.status = "finished" then
    gradedCount s.answers = 10 ∧ s.current_question_index = 10
  else
    gradedCount s.answers = s.current_question_index ∧
    s.current_question_index ≤ 10 ∧
    (∀ r, s.answers.getLast? = some r → r.waiting_for_answer = some true →
      r.graded ≠ some true)

/-- A concrete FillGaps session driven to completion: one assignment-issuing
call followed by one full-answer call per assignment.  The fixed student
message contains no question indicator and has more than 3 words, so every
answer is graded. -/
def fgDemoMsg : String := "the first gap is alpha and the second gap is beta"

def fgDemoEval : GapsEval := { all_correct := true, errors := [], feedback := "well done" }

def fgDemo : Nat → WorkflowState
  | 0 => freshState 7 3 []
  | n + 1 => (fillGapsStep [] (fgDemo n) fgDemoMsg "2026-01-01T00:00:00" "Fill the gap: (1. ___)" fgDemoEval).1

/-- An examination session mid-flight: two questions, one pending answer
record, a follow-up budget of 3 (used as a witness state). -/
def examDemoState (fuc : Nat) : WorkflowState :=
  { ub_id := 9, block_id := 4, current_question_index := 0,
    questions := [{ question := some "Перше питання?", key_concepts := some "a, b" },
                  { question := some "Друге питання?", key_concepts := some "c" }],
    answers := [{ question_index := some 0, answer := some "",
                  timestamp := some "t0", evaluation := some {} }],
    follow_up_count := fuc, max_follow_ups := 3, status := "active" }

/-- `n` roleplay turn records with pairwise distinct agent responses. -/
def roleplayDistinct (n : Nat) : List AnswerRecord :=
  (List.range n).map (fun i =>
    { user_message := some ("повідомлення " ++ Nat.repr i),
      agent_response := some ("відповідь номер " ++ Nat.repr i),
      timestamp := some ("t" ++ Nat.repr i), turn := some (i + 1) })

/-- `n` roleplay turn records whose agent responses are all identical. -/
def roleplayStalled (n : Nat) : List AnswerRecord :=
  (List.range n).map (fun i =>
    { user_message := some ("повідомлення " ++ Nat.repr i),
      agent_response := some "Чи можете розповісти більше про це питання?",
      timestamp := some ("t" ++ Nat.repr i), turn := some (i + 1) })

/-- Append-only shape of one invocation: the answers sequence never
shrinks, every record except (possibly) the mutated last one is preserved
in place, and every appended record carries the invocation timestamp. -/
def appendOnlyTs (old new : List AnswerRecord) (now : String) : Prop :=
  old.length ≤ new.length ∧
  new.take (old.length - 1) = old.take (old.length - 1) ∧
  ∀ a ∈ new.drop old.length, a.timestamp = some now

/-- A reflection session sitting in the aspiration phase. -/
def aspDemoState : WorkflowState :=
  { ub_id := 2, block_id := 2, status := "active",
    custom_data := { phase := some "aspiration", aspiration := some {},
                     strengths := some {}, feed_forward := some {} } }

/-- A finished session state (used to witness the finished-state guards). -/
def finishedDemoState : WorkflowState :=
  { ub_id := 5, block_id := 2, current_question_index := 4,
    questions := [{ question := some "Що таке ВВП?", key_concepts := some "макроекономіка" }],
    answers := [{ user_message := some "готово", timestamp := some "t1" }],
    follow_up_count := 1, max_follow_ups := 3, status := "finished",
    custom_data := { phase := some "summary" } }

/-! ## Helper lemmas -/

theorem updateLast_length (f : AnswerRecord → AnswerRecord) :
    ∀ l : List AnswerRecord, (updateLast f l).length = l.length
  | [] => rfl
  | [_] => rfl
  | a :: b :: rest => by
    show (a :: updateLast f (b :: rest)).length = (a :: b :: rest).length
    simp [updateLast_length f (b :: rest)]

theorem updateLast_take_pred (f : AnswerRecord → AnswerRecord) :
    ∀ l : List AnswerRecord, (updateLast f l).take (l.length - 1) = l.take (l.length - 1)
  | [] => rfl
  | [_] => rfl
  | a :: b :: rest => by
    show (a :: updateLast f (b :: rest)).take ((b :: rest).length + 1 - 1) =
      (a :: b :: rest).take ((b :: rest).length + 1 - 1)
    have hlen : (b :: rest).length + 1 - 1 = ((b :: rest).length - 1) + 1 := by
      simp
    rw [hlen, List.take_succ_cons, List.take_succ_cons,
        updateLast_take_pred f (b :: rest)]

theorem updateLast_getLast? (f : AnswerRecord → AnswerRecord) :
    ∀ l : List AnswerRecord, (updateLast f l).getLast? = l.getLast?.map f
  | [] => rfl
  | [_] => rfl
  | a :: b :: rest => by
    show (a :: updateLast f (b :: rest)).getLast? = ((a :: b :: rest).getLast?).map f
    rcases hu : updateLast f (b :: rest) with _ | ⟨x, xs⟩
    · have hlen := updateLast_length f (b :: rest)
      rw [hu] at hlen
      simp at hlen
    · rw [List.getLast?_cons_cons, ← hu, updateLast_getLast? f (b :: rest),
          List.getLast?_cons_cons]

theorem take_pred_append (l t : List AnswerRecord) :
    (l ++ t).take (l.length - 1) = l.take (l.length - 1) :=
  List.take_append_of_le_length (Nat.sub_le _ _)

theorem drop_length_append (l t : List AnswerRecord) : (l ++ t).drop l.length = t := by
  simp

theorem updateLast_append_take_pred (f : AnswerRecord → AnswerRecord)
    (l t : List AnswerRecord) :
    (updateLast f l ++ t).take (l.length - 1) = l.take (l.length - 1) := by
  rw [← updateLast_length f l, take_pred_append, updateLast_length f l,
      updateLast_take_pred]

theorem updateLast_drop_length (f : AnswerRecord → AnswerRecord) (l : List AnswerRecord) :
    (updateLast f l).drop l.length = [] :=
  List.drop_eq_nil_of_le (by rw [updateLast_length])

theorem updateLast_append_drop_length (f : AnswerRecord → AnswerRecord)
    (l t : List AnswerRecord) : (updateLast f l ++ t).drop l.length = t := by
  rw [← updateLast_length f l, drop_length_append]

theorem gradedCount_nil : gradedCount [] = 0 := rfl

theorem gradedCount_cons (a : AnswerRecord) (l : List AnswerRecord) :
    gradedCount (a :: l) = (if a.graded = some true then 1 else 0) + gradedCount l := by
  by_cases h : a.graded = some true <;>
    simp [gradedCount, List.filter_cons, h, Nat.add_comm]

theorem gradedCount_append (l t : List AnswerRecord) :
    gradedCount (l ++ t) = gradedCount l + gradedCount t := by
  simp [gradedCount, List.filter_append]

theorem gradedCount_updateLast_keep (f : AnswerRecord → AnswerRecord)
    (hf : ∀ r, (f r).graded = r.graded) :
    ∀ l : List AnswerRecord, gradedCount (updateLast f l) = gradedCount l
  | [] => rfl
  | [a] => by
    show gradedCount [f a] = gradedCount [a]
    rw [gradedCount_cons, gradedCount_cons, hf a]
  | a :: b :: rest => by
    show gradedCount (a :: updateLast f (b :: rest)) = gradedCount (a :: b :: rest)
    rw [gradedCount_cons, gradedCount_cons, gradedCount_updateLast_keep f hf (b :: rest)]

theorem gradedCount_updateLast_grade (f : AnswerRecord → AnswerRecord)
    (hf : ∀ r, (f r).graded = some true) :
    ∀ l : List AnswerRecord, ∀ la, l.getLast? = some la → la.graded ≠ some true →
      gradedCount (updateLast f l) = gradedCount l + 1
  | [], la, h, _ => by simp at h
  | [a], la, h, hla => by
    have ha : a = la := by simpa using h
    subst ha
    show gradedCount [f a] = gradedCount [a] + 1
    rw [gradedCount_cons, gradedCount_cons, hf a]
    simp [hla, Nat.add_comm]
  | a :: b :: rest, la, h, hla => by
    have h2 : (b :: rest).getLast? = some la := by
      rwa [List.getLast?_cons_cons] at h
    show gradedCount (a :: updateLast f (b :: rest)) = gradedCount (a :: b :: rest) + 1
    rw [gradedCount_cons, gradedCount_cons,
        gradedCount_updateLast_grade f hf (b :: rest) la h2 hla, Nat.add_assoc]

/-! ## Finished-state guards and status monotonicity (per workflow) -/

theorem examStep_finished_guard (s : WorkflowState) (u now io : String) (ev : ExamEval)
    (h : s.status = "finished") : examStep s u now io ev = (s, "Іспит вже завершено.") := by
  simp [examStep, h]

theorem fillGapsStep_finished_guard (sp : List (List (String × String)))
    (s : WorkflowState) (u now t : String) (ev : GapsEval) (h : s.status = "finished") :
    fillGapsStep sp s u now t ev = (s, "Assignments завершено. Дякую за роботу!") := by
  simp [fillGapsStep, h]

theorem roleplayStep_finished_guard (sp : List (List (String × String)))
    (s : WorkflowState) (u now a : String) (h : s.status = "finished") :
    roleplayStep sp s u now a = (s, "Role-play завершено. Дякую за участь!") := by
  simp [roleplayStep, h]

theorem reflectionStep_finished_guard (sp : List (List (String × String)))
    (s : WorkflowState) (u now c : String) (h : s.status = "finished") :
    reflectionStep sp s u now c = (s, "Reflection session завершено. Дякую!") := by
  simp [reflectionStep, h]

theorem customStep_finished_guard (s : WorkflowState) (u now a : String)
    (h : s.status = "finished") : customStep s u now a = (s, "Чат завершено.") := by
  simp [customStep, h]

theorem analogousStep_finished_guard (sp : List (List (String × String)))
    (s : WorkflowState) (u now t : String) (ev : AnalogousEval)
    (h : s.status = "finished") :
    analogousStep sp s u now t ev = (s, "Assignments завершено. Дякую за роботу!") := by
  simp [analogousStep, h]

theorem examStep_status_mono (s : WorkflowState) (u now io : String) (ev : ExamEval) :
    (examStep s u now io ev).1.status = s.status ∨
    (examStep s u now io ev).1.status = "finished" := by
  simp only [examStep]
  split_ifs <;> simp

theorem fillGapsStep_status_mono (sp : List (List (String × String)))
    (s : WorkflowState) (u now t : String) (ev : GapsEval) :
    (fillGapsStep sp s u now t ev).1.status = s.status ∨
    (fillGapsStep sp s u now t ev).1.status = "finished" := by
  simp only [fillGapsStep]
  split_ifs <;> simp

theorem update_progress_tracking_status (s : WorkflowState) (u a : String) :
    (update_progress_tracking s u a).status = s.status := by
  unfold update_progress_tracking
  split_ifs <;> rfl

theorem update_progress_tracking_answers (s : WorkflowState) (u a : String) :
    (update_progress_tracking s u a).answers = s.answers := by
  unfold update_progress_tracking
  split_ifs <;> rfl

theorem roleplayStep_status_mono (sp : List (List (String × String)))
    (s : WorkflowState) (u now a : String) :
    (roleplayStep sp s u now a).1.status = s.status ∨
    (roleplayStep sp s u now a).1.status = "finished" := by
  simp only [roleplayStep]
  split_ifs <;> simp [update_progress_tracking_status]

theorem reflPhaseUpdate_status (s : WorkflowState) (ph u rl : String) :
    (reflPhaseUpdate s ph u rl).status = s.status ∨
    (reflPhaseUpdate s ph u rl).status = "finished" := by
  simp only [reflPhaseUpdate]
  split_ifs <;> simp

theorem reflTimeboxUpdate_status (s : WorkflowState) (ph tb : String) :
    (reflTimeboxUpdate s ph tb).status = s.status := by
  simp only [reflTimeboxUpdate]
  split_ifs <;> rfl

theorem reflStopUpdate_status (s : WorkflowState) (u : String) :
    (reflStopUpdate s u).status = s.status := by
  simp only [reflStopUpdate]
  split_ifs <;> rfl

theorem update_phase_and_data_status_mono (s : WorkflowState) (u c : String)
    (sp : List (String × String)) :
    (update_phase_and_data s u c sp).status = s.status ∨
    (update_phase_and_data s u c sp).status = "finished" := by
  simp only [update_phase_and_data]
  rw [reflStopUpdate_status, reflTimeboxUpdate_status]
  exact reflPhaseUpdate_status s _ u (pyLower c)

theorem reflPhaseUpdate_answers (s : WorkflowState) (ph u rl : String) :
    (reflPhaseUpdate s ph u rl).answers = s.answers := by
  simp only [reflPhaseUpdate]
  split_ifs <;> rfl

theorem reflTimeboxUpdate_answers (s : WorkflowState) (ph tb : String) :
    (reflTimeboxUpdate s ph tb).answers = s.answers := by
  simp only [reflTimeboxUpdate]
  split_ifs <;> rfl

theorem reflStopUpdate_answers (s : WorkflowState) (u : String) :
    (reflStopUpdate s u).answers = s.answers := by
  simp only [reflStopUpdate]
  split_ifs <;> rfl

theorem update_phase_and_data_answers (s : WorkflowState) (u c : String)
    (sp : List (String × String)) :
    (update_phase_and_data s u c sp).answers = s.answers := by
  simp only [update_phase_and_data]
  rw [reflStopUpdate_answers, reflTimeboxUpdate_answers, reflPhaseUpdate_answers]

/-- Shape of an active reflection invocation: some pre-state `s2` with the
same status and one record appended (carrying the turn's timestamp, user
message and coach response) is passed through `_update_phase_and_data`. -/
theorem reflectionStep_result (sp : List (List (String × String)))
    (s : WorkflowState) (u now c : String) (h : ¬ s.status = "finished") :
    ∃ (s2 : WorkflowState) (rec : AnswerRecord),
      reflectionStep sp s u now c = (update_phase_and_data s2 u c (sp.headD []), c) ∧
      s2.status = s.status ∧ s2.answers = s.answers ++ [rec] ∧
      rec.timestamp = some now ∧ rec.user_message = some u ∧
      rec.coach_response = some c := by
  simp only [reflectionStep]
  rw [if_neg h]
  split_ifs with hph
  · exact ⟨_, _, rfl, rfl, rfl, rfl, rfl, rfl⟩
  · exact ⟨_, _, rfl, rfl, rfl, rfl, rfl, rfl⟩

theorem reflectionStep_status_mono (sp : List (List (String × String)))
    (s : WorkflowState) (u now c : String) :
    (reflectionStep sp s u now c).1.status = s.status ∨
    (reflectionStep sp s u now c).1.status = "finished" := by
  by_cases h : s.status = "finished"
  · rw [reflectionStep_finished_guard sp s u now c h]
    left
    rfl
  · obtain ⟨s2, rec, heq, hs2, _, _, _, _⟩ := reflectionStep_result sp s u now c h
    rw [heq]
    rcases update_phase_and_data_status_mono s2 u c (sp.headD []) with h2 | h2
    · left
      show (update_phase_and_data s2 u c (sp.headD [])).status = s.status
      rw [h2, hs2]
    · right
      exact h2

theorem customStep_status_mono (s : WorkflowState) (u now a : String) :
    (customStep s u now a).1.status = s.status ∨
    (customStep s u now a).1.status = "finished" := by
  simp only [customStep]
  split_ifs <;> simp

theorem analogousStep_status_mono (sp : List (List (String × String)))
    (s : WorkflowState) (u now t : String) (ev : AnalogousEval) :
    (analogousStep sp s u now t ev).1.status = s.status ∨
    (analogousStep sp s u now t ev).1.status = "finished" := by
  simp only [analogousStep]
  split_ifs <;> simp

/-- C1: for every session and every one of the six workflows, once the
session state's status is "finished" the invocation returns the state
completely unchanged (questions, answers, currentIndex, customData and
status included) together with a fixed already-finished message; and in
every invocation the resulting status is either the incoming status or
"finished", so status only ever transitions active → finished and never the
reverse. -/
theorem C1_finished_immutable_status_mono :
    (∀ s u now io ev, s.status = "finished" →
      examStep s u now io ev = (s, "Іспит вже завершено.")) ∧
    (∀ sp s u now t ev, s.status = "finished" →
      fillGapsStep sp s u now t ev = (s, "Assignments завершено. Дякую за роботу!")) ∧
    (∀ sp s u now a, s.status = "finished" →
      roleplayStep sp s u now a = (s, "Role-play завершено. Дякую за участь!")) ∧
    (∀ sp s u now c, s.status = "finished" →
      reflectionStep sp s u now c = (s, "Reflection session завершено. Дякую!")) ∧
    (∀ s u now a, s.status = "finished" →
      customStep s u now a = (s, "Чат завершено.")) ∧
    (∀ sp s u now t ev, s.status = "finished" →
      analogousStep sp s u now t ev = (s, "Assignments завершено. Дякую за роботу!")) ∧
    (∀ s u now io ev, (examStep s u now io ev).1.status = s.status ∨
      (examStep s u now io ev).1.status = "finished") ∧
    (∀ sp s u now t ev, (fillGapsStep sp s u now t ev).1.status = s.status ∨
      (fillGapsStep sp s u now t ev).1.status = "finished") ∧
    (∀ sp s u now a, (roleplayStep sp s u now a).1.status = s.status ∨
      (roleplayStep sp s u now a).1.status = "finished") ∧
    (∀ sp s u now c, (reflectionStep sp s u now c).1.status = s.status ∨
      (reflectionStep sp s u now c).1.status = "finished") ∧
    (∀ s u now a, (customStep s u now a).1.status = s.status ∨
      (customStep s u now a).1.status = "finished") ∧
    (∀ sp s u now t ev, (analogousStep sp s u now t ev).1.status = s.status ∨
      (analogousStep sp s u now t ev).1.status = "finished") :=
  ⟨fun s u now io ev h => examStep_finished_guard s u now io ev h,
   fun sp s u now t ev h => fillGapsStep_finished_guard sp s u now t ev h,
   fun sp s u now a h => roleplayStep_finished_guard sp s u now a h,
   fun sp s u now c h => reflectionStep_finished_guard sp s u now c h,
   fun s u now a h => customStep_finished_guard s u now a h,
   fun sp s u now t ev h => analogousStep_finished_guard sp s u now t ev h,
   fun s u now io ev => examStep_status_mono s u now io ev,
   fun sp s u now t ev => fillGapsStep_status_mono sp s u now t ev,
   fun sp s u now a => roleplayStep_status_mono sp s u now a,
   fun sp s u now c => reflectionStep_status_mono sp s u now c,
   fun s u now a => customStep_status_mono s u now a,
   fun sp s u now t ev => analogousStep_status_mono sp s u now t ev⟩

/-- Witness for C1 at a concrete finished session state. -/
theorem C1_witness :
    finishedDemoState.status = "finished" ∧
    examStep finishedDemoState "і ще" "t2" "out" ⟨true, [], false⟩ =
      (finishedDemoState, "Іспит вже завершено.") ∧
    fillGapsStep [] finishedDemoState "і ще" "t2" "out" ⟨true, [], "fb"⟩ =
      (finishedDemoState, "Assignments завершено. Дякую за роботу!") ∧
    roleplayStep [] finishedDemoState "і ще" "t2" "out" =
      (finishedDemoState, "Role-play завершено. Дякую за участь!") ∧
    reflectionStep [] finishedDemoState "і ще" "t2" "out" =
      (finishedDemoState, "Reflection session завершено. Дякую!") ∧
    customStep finishedDemoState "і ще" "t2" "out" =
      (finishedDemoState, "Чат завершено.") ∧
    analogousStep [] finishedDemoState "і ще" "t2" "out" ⟨true, [], "fb"⟩ =
      (finishedDemoState, "Assignments завершено. Дякую за роботу!") :=
  ⟨rfl,
   C1_finished_immutable_status_mono.1 finishedDemoState "і ще" "t2" "out" ⟨true, [], false⟩ rfl,
   C1_finished_immutable_status_mono.2.1 [] finishedDemoState "і ще" "t2" "out" ⟨true, [], "fb"⟩ rfl,
   C1_finished_immutable_status_mono.2.2.1 [] finishedDemoState "і ще" "t2" "out" rfl,
   C1_finished_immutable_status_mono.2.2.2.1 [] finishedDemoState "і ще" "t2" "out" rfl,
   C1_finished_immutable_status_mono.2.2.2.2.1 finishedDemoState "і ще" "t2" "out" rfl,
   C1_finished_immutable_status_mono.2.2.2.2.2.1 [] finishedDemoState "і ще" "t2" "out" ⟨true, [], "fb"⟩ rfl⟩

/-! ## C2: the score extractor -/

theorem extract_score_go_eq_findSome (text : List Char) :
    ∀ lits : List (List Char), extract_score_go lits text =
      lits.findSome? (fun lit =>
        match searchFrom (matchScoreAt lit) text with
        | some (score, mx) => if mx.1 ≠ 0 then some (round2dec score) else none
        | none => none)
  | [] => rfl
  | lit :: rest => by
    simp only [extract_score_go, List.findSome?_cons]
    cases h : searchFrom (matchScoreAt lit) text with
    | none => simpa using extract_score_go_eq_findSome text rest
    | some p =>
      cases p with
      | mk score mx =>
        by_cases hm : mx.1 ≠ 0
        · simp [hm]
        · simpa [hm] using extract_score_go_eq_findSome text rest

/-- C2: the score extractor tries the bold-markdown pattern, then the plain
pattern, then the localized pattern, and returns the (rounded) numerator of
the first pattern whose leftmost match has a nonzero denominator; in
particular "**Total Score:** 7/10" → 7, "Total Score: 7.5/10" → 7.5,
"Total Score: 5/0" → no score, and unmatched text → no score (an `Option`
`none`, not an error). -/
theorem C2_score_extractor :
    (∀ t : String, extract_score t =
      (score_pattern_lits.findSome? (fun lit =>
        match searchFrom (matchScoreAt lit) t.data with
        | some (score, mx) => if mx.1 ≠ 0 then some (round2dec score) else none
        | none => none)).map decVal) ∧
    extract_score "**Total Score:** 7/10" = some 7 ∧
    extract_score "Total Score: 7.5/10" = some (15 / 2) ∧
    extract_score "Total Score: 5/0" = none ∧
    extract_score "The student wrote a thoughtful essay." = none := by
  refine ⟨fun t => ?_, ?_, ?_, ?_, ?_⟩
  · rw [extract_score, extract_score_go_eq_findSome]
  · have h : extract_score_go score_pattern_lits "**Total Score:** 7/10".data =
        some (7, 0) := by decide
    simp [extract_score, h, decVal]
  · have h : extract_score_go score_pattern_lits "Total Score: 7.5/10".data =
        some (75, 1) := by decide
    simp [extract_score, h, decVal]
    norm_num
  · have h : extract_score_go score_pattern_lits "Total Score: 5/0".data = none := by
      decide
    simp [extract_score, h]
  · have h : extract_score_go score_pattern_lits
        "The student wrote a thoughtful essay.".data = none := by decide
    simp [extract_score, h]

/-! ## C3: the FillGaps 10-assignment cap -/

theorem waitingAnswerBranch_elim (s : WorkflowState) (h : waitingAnswerBranch s = true) :
    ∃ la, s.answers.getLast? = some la ∧ la.waiting_for_answer = some true := by
  unfold waitingAnswerBranch at h
  cases hl : s.answers.getLast? with
  | none => rw [hl] at h; cases h
  | some la =>
    rw [hl] at h
    simp only [Bool.and_eq_true] at h
    obtain ⟨-, h2⟩ := h
    refine ⟨la, rfl, ?_⟩
    cases hw : la.waiting_for_answer with
    | none => rw [hw] at h2; simp at h2
    | some b => rw [hw] at h2; simp at h2; rw [h2]

theorem fillGapsStep_inv (sp : List (List (String × String))) (s : WorkflowState)
    (u now t : String) (ev : GapsEval) (h : fillGapsInv s) :
    fillGapsInv (fillGapsStep sp s u now t ev).1 := by
  by_cases hfin : s.status = "finished"
  · rw [fillGapsStep_finished_guard sp s u now t ev hfin]
    exact h
  · unfold fillGapsInv at h
    rw [if_neg hfin] at h
    obtain ⟨hcount, hle, hlast⟩ := h
    simp only [fillGapsStep]
    rw [if_neg hfin]
    split_ifs with h10 hwait hq h10b
    · -- entry cap reached: 10 ≤ index, becomes finished with exactly 10 graded
      have hidx : s.current_question_index = 10 := Nat.le_antisymm hle h10
      simp [fillGapsInv, hcount, hidx]
    · -- clarifying question / short response: only user_message and
      -- tutor_response of the last record change
      have hkeep := gradedCount_updateLast_keep
        (fun r => { r with user_message := some u, tutor_response := some t })
        (fun r => rfl) s.answers
      dsimp only
      unfold fillGapsInv
      rw [if_neg hfin]
      refine ⟨by rw [hkeep]; exact hcount, hle, ?_⟩
      intro r hr hw
      rw [updateLast_getLast?] at hr
      cases hl : s.answers.getLast? with
      | none => rw [hl] at hr; cases hr
      | some la =>
        rw [hl] at hr
        cases hr
        exact hlast la hl (by simpa using hw)
    · -- full answer graded and the cap is reached: finish with 10 graded
      obtain ⟨la, hl, hwla⟩ := waitingAnswerBranch_elim s hwait
      have hgr := gradedCount_updateLast_grade
        (fun r => { r with answer := some u, timestamp := some now,
                           waiting_for_answer := some false,
                           evaluation := some (gapsEvalDict ev), graded := some true })
        (fun r => rfl) s.answers la hl (hlast la hl hwla)
      dsimp only
      unfold fillGapsInv
      rw [if_pos rfl]
      refine ⟨by rw [hgr, hcount]; omega, ?_⟩
      show s.current_question_index + 1 = 10
      omega
    · -- full answer graded below the cap: count and cursor advance together
      obtain ⟨la, hl, hwla⟩ := waitingAnswerBranch_elim s hwait
      have hgr := gradedCount_updateLast_grade
        (fun r => { r with answer := some u, timestamp := some now,
                           waiting_for_answer := some false,
                           evaluation := some (gapsEvalDict ev), graded := some true })
        (fun r => rfl) s.answers la hl (hlast la hl hwla)
      dsimp only
      unfold fillGapsInv
      rw [if_neg hfin]
      refine ⟨?_, ?_, ?_⟩
      · rw [gradedCount_append, hgr, hcount, gradedCount_cons, gradedCount_nil]
        simp [newGapRecord]
      · show s.current_question_index + 1 ≤ 10
        omega
      · intro r hr hw
        rw [List.getLast?_concat] at hr
        cases hr
        simp [newGapRecord]
    · -- no pending record: a fresh ungraded assignment record is appended
      dsimp only
      unfold fillGapsInv
      rw [if_neg hfin]
      refine ⟨?_, hle, ?_⟩
      · rw [gradedCount_append, hcount, gradedCount_cons, gradedCount_nil]
        simp [newGapRecord]
      · intro r hr hw
        rw [List.getLast?_concat] at hr
        cases hr
        simp [newGapRecord]

theorem fillGapsReach_inv (s : WorkflowState) (h : FillGapsReach s) : fillGapsInv s := by
  induction h with
  | fresh ub blk specs =>
    unfold fillGapsInv freshState
    simp [gradedCount]
  | step s sp u now t ev _ ih => exact fillGapsStep_inv sp s u now t ev ih

theorem fgDemo_reach : ∀ n, FillGapsReach (fgDemo n)
  | 0 => FillGapsReach.fresh 7 3 []
  | n + 1 =>
    FillGapsReach.step (fgDemo n) [] fgDemoMsg "2026-01-01T00:00:00"
      "Fill the gap: (1. ___)" fgDemoEval (fgDemo_reach n)

/-- C3: at the moment the FillGaps status becomes "finished", exactly 10
graded records (graded = true) exist in `answers` — and no reachable state
ever holds more than 10 graded records, so never 11; moreover the cap is a
fixed constant: the step function does not depend on the block
specifications at all. -/
theorem C3_fillgaps_ten_cap :
    (∀ s, FillGapsReach s → s.status = "finished" →
      gradedCount s.answers = 10 ∧ s.current_question_index = 10) ∧
    (∀ s, FillGapsReach s → gradedCount s.answers ≤ 10) ∧
    (∀ (sp sp' : List (List (String × String))) s u now t ev,
      fillGapsStep sp s u now t ev = fillGapsStep sp' s u now t ev) := by
  refine ⟨fun s hr hfin => ?_, fun s hr => ?_, fun sp sp' s u now t ev => rfl⟩
  · have h := fillGapsReach_inv s hr
    unfold fillGapsInv at h
    rw [if_pos hfin] at h
    exact h
  · have h := fillGapsReach_inv s hr
    unfold fillGapsInv at h
    split_ifs at h with hfin
    · omega
    · omega

/-- Witness for C3: a concrete session driven through 10 graded assignments
finishes with exactly 10 graded records. -/
theorem C3_witness :
    FillGapsReach (fgDemo 11) ∧ (fgDemo 11).status = "finished" ∧
    gradedCount (fgDemo 11).answers = 10 ∧ gradedCount (fgDemo 10).answers ≤ 10 :=
  ⟨fgDemo_reach 11, by decide,
   (C3_fillgaps_ten_cap.1 (fgDemo 11) (fgDemo_reach 11) (by decide)).1,
   C3_fillgaps_ten_cap.2.1 (fgDemo 10) (fgDemo_reach 10)⟩

/-! ## C4: the examination follow-up budget -/

theorem examStep_followup_bound (s : WorkflowState) (u now io : String) (ev : ExamEval) :
    (examStep s u now io ev).1.max_follow_ups = s.max_follow_ups ∧
    (s.follow_up_count ≤ s.max_follow_ups →
      (examStep s u now io ev).1.follow_up_count ≤ s.max_follow_ups) := by
  simp only [examStep]
  split_ifs with hf hl hask hc hl2 hm hl3 <;> refine ⟨rfl, fun hb => ?_⟩ <;>
    first
      | exact hb
      | exact Nat.zero_le _
      | (show s.follow_up_count + 1 ≤ s.max_follow_ups; omega)

theorem examStep_eval_complete (s : WorkflowState) (u now io : String) (ev : ExamEval)
    (hfin : ¬ s.status = "finished") (hlt : s.current_question_index < s.questions.length)
    (hask : examAskBranch s = false) (hc : ev.complete = true) :
    (examStep s u now io ev).1.current_question_index = s.current_question_index + 1 ∧
    (examStep s u now io ev).1.follow_up_count = 0 ∧
    ((examStep s u now io ev).1.status = "finished" ↔
      s.questions.length ≤ s.current_question_index + 1) := by
  simp only [examStep]
  rw [if_neg hfin, if_neg (Nat.not_le.mpr hlt), hask,
      if_neg (by simp : ¬ (false = true)), if_pos hc]
  split_ifs with hlen
  · exact ⟨rfl, rfl, by simp [hlen]⟩
  · refine ⟨rfl, rfl, ?_⟩
    constructor
    · intro hcon
      exact absurd hcon hfin
    · intro hcon
      exact absurd hcon hlen

theorem examStep_eval_force_advance (s : WorkflowState) (u now io : String) (ev : ExamEval)
    (hfin : ¬ s.status = "finished") (hlt : s.current_question_index < s.questions.length)
    (hask : examAskBranch s = false) (hc : ev.complete = false)
    (hm : s.max_follow_ups ≤ s.follow_up_count) :
    (examStep s u now io ev).1.current_question_index = s.current_question_index + 1 ∧
    (examStep s u now io ev).1.follow_up_count = 0 ∧
    ((examStep s u now io ev).1.status = "finished" ↔
      s.questions.length ≤ s.current_question_index + 1) := by
  simp only [examStep]
  rw [if_neg hfin, if_neg (Nat.not_le.mpr hlt), hask,
      if_neg (by simp : ¬ (false = true)), hc,
      if_neg (by simp : ¬ (false = true)), if_pos hm]
  split_ifs with hlen
  · exact ⟨rfl, rfl, by simp [hlen]⟩
  · refine ⟨rfl, rfl, ?_⟩
    constructor
    · intro hcon
      exact absurd hcon hfin
    · intro hcon
      exact absurd hcon hlen

theorem examStep_eval_followup (s : WorkflowState) (u now io : String) (ev : ExamEval)
    (hfin : ¬ s.status = "finished") (hlt : s.current_question_index < s.questions.length)
    (hask : examAskBranch s = false) (hc : ev.complete = false)
    (hm : s.follow_up_count < s.max_follow_ups) :
    (examStep s u now io ev).1.current_question_index = s.current_question_index ∧
    (examStep s u now io ev).1.follow_up_count = s.follow_up_count + 1 ∧
    (examStep s u now io ev).1.status = s.status := by
  simp only [examStep]
  rw [if_neg hfin, if_neg (Nat.not_le.mpr hlt), hask,
      if_neg (by simp : ¬ (false = true)), hc,
      if_neg (by simp : ¬ (false = true)), if_neg (Nat.not_le.mpr hm)]
  exact ⟨rfl, rfl, rfl⟩

/-- C4: the examination follow-up budget.  The follow-up counter never
exceeds `maxFollowUps` (which itself never changes): when the evaluator
judges an answer incomplete at the budget, the index is force-advanced and
the counter reset; when incomplete under the budget, only the counter is
incremented; when complete, the index advances and the counter resets; and
in both advancing cases the session becomes "finished" exactly when the
advanced index reaches the number of questions — so after the N-th question
of an N-question list is judged complete, status is "finished". -/
theorem C4_examination_followups :
    (∀ s u now io ev,
      (examStep s u now io ev).1.max_follow_ups = s.max_follow_ups ∧
      (s.follow_up_count ≤ s.max_follow_ups →
        (examStep s u now io ev).1.follow_up_count ≤ s.max_follow_ups)) ∧
    (∀ s u now io ev, ¬ s.status = "finished" →
      s.current_question_index < s.questions.length → examAskBranch s = false →
      ev.complete = true →
      (examStep s u now io ev).1.current_question_index = s.current_question_index + 1 ∧
      (examStep s u now io ev).1.follow_up_count = 0 ∧
      ((examStep s u now io ev).1.status = "finished" ↔
        s.questions.length ≤ s.current_question_index + 1)) ∧
    (∀ s u now io ev, ¬ s.status = "finished" →
      s.current_question_index < s.questions.length → examAskBranch s = false →
      ev.complete = false → s.max_follow_ups ≤ s.follow_up_count →
      (examStep s u now io ev).1.current_question_index = s.current_question_index + 1 ∧
      (examStep s u now io ev).1.follow_up_count = 0 ∧
      ((examStep s u now io ev).1.status = "finished" ↔
        s.questions.length ≤ s.current_question_index + 1)) ∧
    (∀ s u now io ev, ¬ s.status = "finished" →
      s.current_question_index < s.questions.length → examAskBranch s = false →
      ev.complete = false → s.follow_up_count < s.max_follow_ups →
      (examStep s u now io ev).1.current_question_index = s.current_question_index ∧
      (examStep s u now io ev).1.follow_up_count = s.follow_up_count + 1 ∧
      (examStep s u now io ev).1.status = s.status) :=
  ⟨fun s u now io ev => examStep_followup_bound s u now io ev,
   fun s u now io ev hf hl ha hc => examStep_eval_complete s u now io ev hf hl ha hc,
   fun s u now io ev hf hl ha hc hm => examStep_eval_force_advance s u now io ev hf hl ha hc hm,
   fun s u now io ev hf hl ha hc hm => examStep_eval_followup s u now io ev hf hl ha hc hm⟩

/-- Witness for C4 at concrete examination states (budget 3): a complete
answer advances 0 → 1 and resets the counter; an incomplete answer at the
budget force-advances; an incomplete answer under the budget increments the
counter only. -/
theorem C4_witness :
    ((examStep (examDemoState 1) "відповідь" "t1" "out" ⟨true, [], false⟩).1.current_question_index = 1 ∧
     (examStep (examDemoState 1) "відповідь" "t1" "out" ⟨true, [], false⟩).1.follow_up_count = 0) ∧
    ((examStep (examDemoState 3) "відповідь" "t1" "out" ⟨false, ["b"], false⟩).1.current_question_index = 1 ∧
     (examStep (examDemoState 3) "відповідь" "t1" "out" ⟨false, ["b"], false⟩).1.follow_up_count = 0) ∧
    ((examStep (examDemoState 1) "відповідь" "t1" "out" ⟨false, ["b"], true⟩).1.follow_up_count = 2 ∧
     (examStep (examDemoState 1) "відповідь" "t1" "out" ⟨false, ["b"], true⟩).1.current_question_index = 0) ∧
    (examStep (examDemoState 3) "відповідь" "t1" "out" ⟨true, [], false⟩).1.follow_up_count ≤ 3 := by
  have h1 := C4_examination_followups.2.1 (examDemoState 1) "відповідь" "t1" "out"
    ⟨true, [], false⟩ (by decide) (by decide) (by decide) rfl
  have h2 := C4_examination_followups.2.2.1 (examDemoState 3) "відповідь" "t1" "out"
    ⟨false, ["b"], false⟩ (by decide) (by decide) (by decide) rfl (by decide)
  have h3 := C4_examination_followups.2.2.2 (examDemoState 1) "відповідь" "t1" "out"
    ⟨false, ["b"], true⟩ (by decide) (by decide) (by decide) rfl (by decide)
  have h4 := (C4_examination_followups.1 (examDemoState 3) "відповідь" "t1" "out"
    ⟨true, [], false⟩).2 (by decide)
  exact ⟨⟨h1.1, h1.2.1⟩, ⟨h2.1, h2.2.1⟩, ⟨h3.2.1, h3.1⟩, h4⟩

/-! ## C5 and C6: the roleplay finish conditions -/

theorem confirmHit_15turns (answers : List AnswerRecord) :
    confirmHit answers "15 turns" = false := by
  have h : (pyIn "finished" (pyLower "15 turns") ||
      pyIn "phrase" (pyLower "15 turns")) = false := by decide
  simp [confirmHit, h]

theorem check15_false_at_14 (answers : List AnswerRecord) (resp : String)
    (hlen : answers.length = 14) (hcomp : completionHit resp = false)
    (hstall : stallHit answers = false) :
    check_finish_conditions answers "15 turns" resp = false := by
  have hmax : max_turns_of "15 turns" = 15 := by decide
  simp [check_finish_conditions, hmax, hlen, hcomp, hstall, confirmHit_15turns]

theorem check15_true_at_15 (answers : List AnswerRecord) (resp : String)
    (hlen : answers.length = 15) :
    check_finish_conditions answers "15 turns" resp = true := by
  have hmax : max_turns_of "15 turns" = 15 := by decide
  simp [check_finish_conditions, hmax, hlen]

theorem check15_stall (answers : List AnswerRecord) (resp : String)
    (h5 : 5 ≤ answers.length) (hst : stallHit answers = true) :
    check_finish_conditions answers "15 turns" resp = true := by
  have hmax : max_turns_of "15 turns" = 15 := by decide
  have h3 : ¬ (answers.length < 3) := by omega
  simp [check_finish_conditions, hmax, hst, h5, h3]

/-- C5: with `finishConditions = "15 turns"` and no other finish signal
(no completion phrase in the latest response and no stall among the last
three responses), the finish check is false at turn count 14 and true as
soon as the turn count reaches 15; and at any turn count ≥ 5, three last
agent responses sharing an identical 50-character slice make the check
true. -/
theorem C5_roleplay_turn_finish :
    (∀ answers resp, answers.length = 14 → completionHit resp = false →
      stallHit answers = false →
      check_finish_conditions answers "15 turns" resp = false) ∧
    (∀ answers resp, answers.length = 15 →
      check_finish_conditions answers "15 turns" resp = true) ∧
    (∀ answers resp, 5 ≤ answers.length → stallHit answers = true →
      check_finish_conditions answers "15 turns" resp = true) :=
  ⟨fun answers resp h1 h2 h3 => check15_false_at_14 answers resp h1 h2 h3,
   fun answers resp h1 => check15_true_at_15 answers resp h1,
   fun answers resp h1 h2 => check15_stall answers resp h1 h2⟩

/-- Witness for C5 at concrete conversations: 14 distinct turns do not
finish, 15 turns do, and 6 stalled turns do. -/
theorem C5_witness :
    check_finish_conditions (roleplayDistinct 14) "15 turns" "Продовжуємо розмову." = false ∧
    check_finish_conditions (roleplayDistinct 15) "15 turns" "Продовжуємо розмову." = true ∧
    check_finish_conditions (roleplayStalled 6) "15 turns" "Чи можете розповісти більше про це питання?" = true :=
  ⟨C5_roleplay_turn_finish.1 (roleplayDistinct 14) "Продовжуємо розмову."
     (by decide) (by decide) (by decide),
   C5_roleplay_turn_finish.2.1 (roleplayDistinct 15) "Продовжуємо розмову." (by decide),
   C5_roleplay_turn_finish.2.2 (roleplayStalled 6) "Чи можете розповісти більше про це питання?"
     (by decide) (by decide)⟩

theorem check_finish_under_3 (answers : List AnswerRecord) (cond resp : String)
    (h : answers.length < 3) : check_finish_conditions answers cond resp = false := by
  unfold check_finish_conditions
  split_ifs <;> rfl

theorem max_turns_of_match (cond : String) (n : Nat) (unit : List Char)
    (h : searchTurns cond = some (n, unit)) :
    max_turns_of cond = (if pyIn "хвилин" (String.mk unit) then max (n * 2) 10 else n) := by
  unfold max_turns_of
  rw [h]

theorem max_turns_of_default (cond : String) (h : searchTurns cond = none) :
    max_turns_of cond = 20 := by
  unfold max_turns_of
  rw [h]

/-- Shape of an active roleplay invocation: some post-turn state `s3` with
the incoming status and one appended record is finish-checked, and the
status is set accordingly. -/
theorem roleplayStep_result (sp : List (List (String × String)))
    (s : WorkflowState) (u now out : String) (h : ¬ s.status = "finished") :
    ∃ (s3 : WorkflowState) (rec : AnswerRecord),
      roleplayStep sp s u now out =
        (if check_finish_conditions s3.answers
            (dictGet (sp.headD []) "finish_dialogue_conditions" "") out
         then ({ s3 with status := "finished" }, out) else (s3, out)) ∧
      s3.answers = s.answers ++ [rec] ∧ s3.status = s.status ∧
      rec.timestamp = some now ∧ rec.user_message = some u ∧
      rec.agent_response = some out := by
  by_cases hinit : ((s.custom_data.progress_notes.getD []).isEmpty) = true
  · simp only [roleplayStep, hinit, if_true, h, if_false]
    exact ⟨_, _, rfl, update_progress_tracking_answers _ u out,
      update_progress_tracking_status _ u out, rfl, rfl, rfl⟩
  · simp only [roleplayStep, hinit, if_true, h, if_false]
    exact ⟨_, _, rfl, update_progress_tracking_answers _ u out,
      update_progress_tracking_status _ u out, rfl, rfl, rfl⟩

theorem roleplayStep_finish_check (sp : List (List (String × String)))
    (s : WorkflowState) (u now out : String) (h : ¬ s.status = "finished") :
    ((roleplayStep sp s u now out).1.status = "finished" ↔
      check_finish_conditions (roleplayStep sp s u now out).1.answers
        (dictGet (sp.headD []) "finish_dialogue_conditions" "") out = true) := by
  obtain ⟨s3, rec, heq, hans, hst, -, -, -⟩ := roleplayStep_result sp s u now out h
  rw [heq]
  split_ifs with hc
  · simpa using hc
  · constructor
    · intro hcon
      exact absurd (hst ▸ hcon) h
    · intro hcon
      exact absurd hcon hc

/-- C6: the roleplay finish check applies only after at least 3 turns; the
configured text is parsed once by the turn-count pattern — a minutes count
converts to `max(n*2, 10)` turns, an explicit turn/exchange count is used
directly, and an unparseable text defaults the maximum to 20; and on every
active invocation the resulting status is "finished" exactly when the
finish check (turn maximum, completion phrase, confirmation, stall
detection) fires on the post-turn state. -/
theorem C6_roleplay_finish_config :
    (∀ answers cond resp, answers.length < 3 →
      check_finish_conditions answers cond resp = false) ∧
    (∀ cond n unit, searchTurns cond = some (n, unit) →
      max_turns_of cond =
        (if pyIn "хвилин" (String.mk unit) then max (n * 2) 10 else n)) ∧
    (∀ cond, searchTurns cond = none → max_turns_of cond = 20) ∧
    (∀ sp s u now out, ¬ s.status = "finished" →
      ((roleplayStep sp s u now out).1.status = "finished" ↔
        check_finish_conditions (roleplayStep sp s u now out).1.answers
          (dictGet (sp.headD []) "finish_dialogue_conditions" "") out = true)) :=
  ⟨fun answers cond resp h => check_finish_under_3 answers cond resp h,
   fun cond n unit h => max_turns_of_match cond n unit h,
   fun cond h => max_turns_of_default cond h,
   fun sp s u now out h => roleplayStep_finish_check sp s u now out h⟩

/-- Witness for C6: two turns never finish; "30 хвилин" parses to 60 turns,
"2 хвилини" is clamped up to 10, "8 exchanges" is used directly, and an
unparseable condition defaults to 20; and a concrete active invocation
finishes exactly as its post-turn check says. -/
theorem C6_witness :
    check_finish_conditions (roleplayDistinct 2) "15 turns" "Продовжуємо." = false ∧
    max_turns_of "30 хвилин" = 60 ∧
    max_turns_of "2 хвилини" = 10 ∧
    max_turns_of "8 exchanges" = 8 ∧
    max_turns_of "поки студент не завершить" = 20 ∧
    (((roleplayStep [[("finish_dialogue_conditions", "15 turns")]]
        { examDemoState 0 with answers := roleplayDistinct 14 }
        "наступна репліка" "t15" "Продовжуємо розмову.").1.status = "finished") ↔
      check_finish_conditions
        ((roleplayStep [[("finish_dialogue_conditions", "15 turns")]]
          { examDemoState 0 with answers := roleplayDistinct 14 }
          "наступна репліка" "t15" "Продовжуємо розмову.").1.answers)
        "15 turns" "Продовжуємо розмову." = true) := by
  refine ⟨C6_roleplay_finish_config.1 (roleplayDistinct 2) "15 turns" "Продовжуємо." (by decide),
    ?_, ?_, ?_, ?_, ?_⟩
  · have h : searchTurns "30 хвилин" = some (30, "хвилин".data) := by decide
    rw [C6_roleplay_finish_config.2.1 "30 хвилин" 30 "хвилин".data h]
    decide
  · have h : searchTurns "2 хвилини" = some (2, "хвилин".data) := by decide
    rw [C6_roleplay_finish_config.2.1 "2 хвилини" 2 "хвилин".data h]
    decide
  · have h : searchTurns "8 exchanges" = some (8, "exchanges".data) := by decide
    rw [C6_roleplay_finish_config.2.1 "8 exchanges" 8 "exchanges".data h]
    decide
  · exact C6_roleplay_finish_config.2.2.1 "поки студент не завершить" (by decide)
  · exact C6_roleplay_finish_config.2.2.2 [[("finish_dialogue_conditions", "15 turns")]]
      { examDemoState 0 with answers := roleplayDistinct 14 }
      "наступна репліка" "t15" "Продовжуємо розмову." (by decide)

/-! ## C7: evaluation routines and the "no completed work" case -/

theorem gapsEvalDocOf_empty (f : EvalDict → Bool) (ws : WorkflowState)
    (ei : String) (cr : List Criterion) (h : completedCount ws.answers = 0) :
    gapsEvalDocOf f ws ei cr = noCompletedMsg := by
  unfold gapsEvalDocOf
  rw [if_pos h]

/-- Counterexample to C7 as stated: with no completed turns the Custom
workflow evaluation routine still returns whatever the generation service
produces — two different generation oracles give two different results, and
neither is a fixed "no completed work" message — so the routine does call
the generation service instead of short-circuiting. -/
theorem C7_counterexample :
    customRunEvaluation (fun _ => "MODEL OUTPUT A") 1 { ub_id := 1, block_id := 1 }
      "Оцініть розмову." [] "gpt-4o" = "MODEL OUTPUT A" ∧
    customRunEvaluation (fun _ => "MODEL OUTPUT B") 1 { ub_id := 1, block_id := 1 }
      "Оцініть розмову." [] "gpt-4o" = "MODEL OUTPUT B" ∧
    ("MODEL OUTPUT A" : String) ≠ noCompletedMsg := by
  refine ⟨?_, ?_, by decide⟩ <;> rfl

/-- C7 amended: no evaluation routine returns a fixed message without
calling the generation service.  All six always issue the generation call
and return its (stripped) output; FillGaps and Analogous, when no record
holds a nonempty answer, substitute the fixed no-completed-assignments text
as the entire instruction document of that call, while the other four
always send the full report-building document. -/
theorem C7_generation_always_called :
    (∀ gen ub ws ei cr m, completedCount ws.answers = 0 →
      fillGapsEvalDoc ws ei cr = noCompletedMsg ∧
      fillGapsRunEvaluation gen ub ws ei cr m = pyStrip (gen noCompletedMsg)) ∧
    (∀ gen ub ws ei cr m, completedCount ws.answers = 0 →
      analogousEvalDoc ws ei cr = noCompletedMsg ∧
      analogousRunEvaluation gen ub ws ei cr m = pyStrip (gen noCompletedMsg)) ∧
    (∀ gen ub ws ei cr m,
      examRunEvaluation gen ub ws ei cr m = pyStrip (gen (examEvalDoc ws ei cr))) ∧
    (∀ gen ub ws ei cr m,
      roleplayRunEvaluation gen ub ws ei cr m = pyStrip (gen (roleplayEvalDoc ws ei cr))) ∧
    (∀ gen ub ws ei cr m,
      reflectionRunEvaluation gen ub ws ei cr m = pyStrip (gen (reflectionEvalDoc ws ei cr))) ∧
    (∀ gen ub ws ei cr m,
      customRunEvaluation gen ub ws ei cr m = pyStrip (gen (customEvalDoc ws ei cr))) := by
  refine ⟨fun gen ub ws ei cr m h => ⟨gapsEvalDocOf_empty _ ws ei cr h, ?_⟩,
    fun gen ub ws ei cr m h => ⟨gapsEvalDocOf_empty _ ws ei cr h, ?_⟩,
    fun gen ub ws ei cr m => rfl, fun gen ub ws ei cr m => rfl,
    fun gen ub ws ei cr m => rfl, fun gen ub ws ei cr m => rfl⟩
  · show pyStrip (gen (fillGapsEvalDoc ws ei cr)) = pyStrip (gen noCompletedMsg)
    rw [show fillGapsEvalDoc ws ei cr = noCompletedMsg from
      gapsEvalDocOf_empty _ ws ei cr h]
  · show pyStrip (gen (analogousEvalDoc ws ei cr)) = pyStrip (gen noCompletedMsg)
    rw [show analogousEvalDoc ws ei cr = noCompletedMsg from
      gapsEvalDocOf_empty _ ws ei cr h]

/-- Witness for C7 amended at an empty session state. -/
theorem C7_witness :
    completedCount ({ ub_id := 1, block_id := 1 } : WorkflowState).answers = 0 ∧
    fillGapsRunEvaluation (fun d => d) 1 { ub_id := 1, block_id := 1 }
      "Інструкції" [] "gpt-4o" = noCompletedMsg ∧
    analogousRunEvaluation (fun d => d) 1 { ub_id := 1, block_id := 1 }
      "Інструкції" [] "gpt-4o" = noCompletedMsg ∧
    customRunEvaluation (fun _ => "звіт") 1 { ub_id := 1, block_id := 1 }
      "Інструкції" [] "gpt-4o" = pyStrip "звіт" := by
  refine ⟨by decide, ?_, ?_, ?_⟩
  · rw [(C7_generation_always_called.1 (fun d => d) 1 { ub_id := 1, block_id := 1 }
      "Інструкції" [] "gpt-4o" (by decide)).2]
    decide
  · rw [(C7_generation_always_called.2.1 (fun d => d) 1 { ub_id := 1, block_id := 1 }
      "Інструкції" [] "gpt-4o" (by decide)).2]
    decide
  · exact C7_generation_always_called.2.2.2.2.2 (fun _ => "звіт") 1
      { ub_id := 1, block_id := 1 } "Інструкції" [] "gpt-4o"

/-! ## C8: the Reflection phase tracker -/

theorem reflPhaseUpdate_asp_keep (s : WorkflowState) (u rl : String) :
    (reflPhaseUpdate s "aspiration" u rl).custom_data.strengths = s.custom_data.strengths ∧
    (reflPhaseUpdate s "aspiration" u rl).custom_data.feed_forward = s.custom_data.feed_forward := by
  unfold reflPhaseUpdate
  rw [if_pos rfl]
  split_ifs <;> exact ⟨rfl, rfl⟩

theorem reflTimeboxUpdate_keep (s : WorkflowState) (ph tb : String) :
    (reflTimeboxUpdate s ph tb).custom_data.strengths = s.custom_data.strengths ∧
    (reflTimeboxUpdate s ph tb).custom_data.feed_forward = s.custom_data.feed_forward := by
  unfold reflTimeboxUpdate
  split_ifs <;> exact ⟨rfl, rfl⟩

theorem reflStopUpdate_keep (s : WorkflowState) (u : String) :
    (reflStopUpdate s u).custom_data.strengths = s.custom_data.strengths ∧
    (reflStopUpdate s u).custom_data.feed_forward = s.custom_data.feed_forward := by
  unfold reflStopUpdate
  split_ifs <;> exact ⟨rfl, rfl⟩

theorem update_phase_and_data_keep (s2 : WorkflowState) (u c : String)
    (sp : List (String × String))
    (h : s2.custom_data.phase.getD "aspiration" = "aspiration") :
    (update_phase_and_data s2 u c sp).custom_data.strengths = s2.custom_data.strengths ∧
    (update_phase_and_data s2 u c sp).custom_data.feed_forward = s2.custom_data.feed_forward := by
  unfold update_phase_and_data
  rw [h]
  constructor
  · rw [(reflStopUpdate_keep _ u).1, (reflTimeboxUpdate_keep _ _ _).1,
        (reflPhaseUpdate_asp_keep s2 u (pyLower c)).1]
  · rw [(reflStopUpdate_keep _ u).2, (reflTimeboxUpdate_keep _ _ _).2,
        (reflPhaseUpdate_asp_keep s2 u (pyLower c)).2]

/-- In the aspiration phase, a coach response carrying both move phrases
sets the phase to "strengths", provided neither the stop phrases nor the
timebox fallback override it. -/
theorem update_phase_to_strengths (s2 : WorkflowState) (u c : String)
    (sp : List (String × String))
    (hph : s2.custom_data.phase.getD "aspiration" = "aspiration")
    (h1 : pyIn "перейдемо до" (pyLower c) = true)
    (h2 : pyIn "сильних сторін" (pyLower c) = true)
    (hstop : stop_requested u = false)
    (h10 : (pyIn "10" (dictGet sp "timebox" "") &&
      decide (8 ≤ s2.answers.length)) = false)
    (h20 : (pyIn "20" (dictGet sp "timebox" "") &&
      decide (15 ≤ s2.answers.length)) = false) :
    (update_phase_and_data s2 u c sp).custom_data.phase = some "strengths" := by
  simp only [update_phase_and_data, reflPhaseUpdate]
  rw [hph]
  rw [if_pos rfl, if_pos (show (pyIn "перейдемо до" (pyLower c) &&
    pyIn "сильних сторін" (pyLower c)) = true by rw [h1, h2]; rfl)]
  simp only [reflStopUpdate, reflTimeboxUpdate]
  split_ifs with hA hB hC hD hE hF hG hH <;>
    first
      | rfl
      | (exact absurd (show (pyIn "10" (dictGet sp "timebox" "") &&
            decide (8 ≤ s2.answers.length)) = true from by assumption)
          (by rw [h10]; exact Bool.false_ne_true))
      | (exact absurd (show (pyIn "20" (dictGet sp "timebox" "") &&
            decide (15 ≤ s2.answers.length)) = true from by assumption)
          (by rw [h20]; exact Bool.false_ne_true))
      | (exact absurd (show stop_requested u = true from by assumption)
          (by rw [hstop]; exact Bool.false_ne_true))

/-- Counterexample to C8 as stated: in the aspiration phase, a coach
response containing both move phrases does NOT always move the phase to
"strengths" — a student stop phrase ("завершуй") in the same turn overrides
the move and the persisted phase is "summary". -/
theorem C8_counterexample :
    (pyIn "перейдемо до"
      (pyLower "Чудово! Тепер перейдемо до ваших сильних сторін.") = true) ∧
    (pyIn "сильних сторін"
      (pyLower "Чудово! Тепер перейдемо до ваших сильних сторін.") = true) ∧
    aspDemoState.custom_data.phase = some "aspiration" ∧
    ((reflectionStep [] aspDemoState "завершуй" "t1"
        "Чудово! Тепер перейдемо до ваших сильних сторін.").1.custom_data.phase
      = some "summary") := by
  refine ⟨by decide, by decide, rfl, by decide⟩

/-- The first active turn with an absent (or empty) phase initializes the
phase bag: the appended record carries phase "aspiration" together with the
turn's message and timestamp, and the persisted strengths / feed_forward
collections are empty. -/
theorem reflectionStep_init (sp : List (List (String × String)))
    (s : WorkflowState) (u now c : String) (hfin : ¬ s.status = "finished")
    (hph : phaseFalsy s.custom_data = true) :
    ∃ rec, (reflectionStep sp s u now c).1.answers = s.answers ++ [rec] ∧
      rec.phase = some "aspiration" ∧ rec.user_message = some u ∧
      rec.timestamp = some now ∧
      (reflectionStep sp s u now c).1.custom_data.strengths = some {} ∧
      (reflectionStep sp s u now c).1.custom_data.feed_forward = some {} := by
  simp only [reflectionStep, hph, if_true, hfin, if_false]
  refine ⟨_, update_phase_and_data_answers _ u c _, rfl, rfl, rfl, ?_, ?_⟩
  · exact (update_phase_and_data_keep _ u c _ (by rfl)).1
  · exact (update_phase_and_data_keep _ u c _ (by rfl)).2

/-- An active turn effectively in the aspiration phase whose generated
response carries both move phrases sets the persisted phase to "strengths",
provided the student message carries no stop phrase and the timebox
fallback does not fire on the post-turn length. -/
theorem reflectionStep_move_to_strengths (sp : List (List (String × String)))
    (s : WorkflowState) (u now c : String) (hfin : ¬ s.status = "finished")
    (hph : phaseFalsy s.custom_data = true ∨ s.custom_data.phase = some "aspiration")
    (h1 : pyIn "перейдемо до" (pyLower c) = true)
    (h2 : pyIn "сильних сторін" (pyLower c) = true)
    (hstop : stop_requested u = false)
    (h10 : (pyIn "10" (dictGet (sp.headD []) "timebox" "") &&
      decide (8 ≤ s.answers.length + 1)) = false)
    (h20 : (pyIn "20" (dictGet (sp.headD []) "timebox" "") &&
      decide (15 ≤ s.answers.length + 1)) = false) :
    (reflectionStep sp s u now c).1.custom_data.phase = some "strengths" := by
  by_cases hinit : phaseFalsy s.custom_data = true
  · simp only [reflectionStep, hinit, if_true, hfin, if_false]
    refine update_phase_to_strengths _ u c (sp.headD []) rfl h1 h2 hstop ?_ ?_
    · simpa using h10
    · simpa using h20
  · have hpa : s.custom_data.phase = some "aspiration" := hph.resolve_left hinit
    simp only [reflectionStep, hinit, if_false, hfin]
    refine update_phase_to_strengths _ u c (sp.headD []) (by simp [hpa]) h1 h2 hstop ?_ ?_
    · simpa using h10
    · simpa using h20

/-- C8 amended: when `customData.phase` is absent the first active turn
initializes phase "aspiration" with empty strengths/feed_forward
collections (the turn record is tagged "aspiration"); and a generated coach
response containing both "перейдемо до" and "сильних сторін"
(case-insensitively) while effectively in the aspiration phase moves the
persisted phase to "strengths" — unless the student message carries a stop
phrase ("завершуй"/"закінчи") or the timebox fallback fires, which override
the move to "summary" (as the counterexample shows). -/
theorem C8_reflection_phase :
    (∀ sp s u now c, ¬ s.status = "finished" → phaseFalsy s.custom_data = true →
      ∃ rec, (reflectionStep sp s u now c).1.answers = s.answers ++ [rec] ∧
        rec.phase = some "aspiration" ∧ rec.user_message = some u ∧
        rec.timestamp = some now ∧
        (reflectionStep sp s u now c).1.custom_data.strengths = some {} ∧
        (reflectionStep sp s u now c).1.custom_data.feed_forward = some {}) ∧
    (∀ sp s u now c, ¬ s.status = "finished" →
      (phaseFalsy s.custom_data = true ∨ s.custom_data.phase = some "aspiration") →
      pyIn "перейдемо до" (pyLower c) = true →
      pyIn "сильних сторін" (pyLower c) = true →
      stop_requested u = false →
      (pyIn "10" (dictGet (sp.headD []) "timebox" "") &&
        decide (8 ≤ s.answers.length + 1)) = false →
      (pyIn "20" (dictGet (sp.headD []) "timebox" "") &&
        decide (15 ≤ s.answers.length + 1)) = false →
      (reflectionStep sp s u now c).1.custom_data.phase = some "strengths") :=
  ⟨fun sp s u now c hf hp => reflectionStep_init sp s u now c hf hp,
   fun sp s u now c hf hp h1 h2 h3 h4 h5 =>
     reflectionStep_move_to_strengths sp s u now c hf hp h1 h2 h3 h4 h5⟩

/-- Witness for C8 amended at a concrete first turn and a concrete move
turn. -/
theorem C8_witness :
    (∃ rec, (reflectionStep [] { ub_id := 3, block_id := 3 } "Привіт" "t0"
        "Вітаю! Що для вас важливо?").1.answers = [] ++ [rec] ∧
      rec.phase = some "aspiration" ∧ rec.user_message = some "Привіт" ∧
      rec.timestamp = some "t0" ∧
      (reflectionStep [] { ub_id := 3, block_id := 3 } "Привіт" "t0"
        "Вітаю! Що для вас важливо?").1.custom_data.strengths = some {} ∧
      (reflectionStep [] { ub_id := 3, block_id := 3 } "Привіт" "t0"
        "Вітаю! Що для вас важливо?").1.custom_data.feed_forward = some {}) ∧
    (reflectionStep [] { aspDemoState with ub_id := 3, block_id := 3 }
      "моя мета — нова робота" "t1"
      "Чудово! Тепер перейдемо до ваших сильних сторін.").1.custom_data.phase
      = some "strengths" :=
  ⟨C8_reflection_phase.1 [] { ub_id := 3, block_id := 3 } "Привіт" "t0"
     "Вітаю! Що для вас важливо?" (by decide) (by decide),
   C8_reflection_phase.2 [] { aspDemoState with ub_id := 3, block_id := 3 }
     "моя мета — нова робота" "t1"
     "Чудово! Тепер перейдемо до ваших сильних сторін." (by decide)
     (Or.inr rfl) (by decide) (by decide) (by decide) (by decide) (by decide)⟩

/-! ## C9: the answers sequence is append-only -/

theorem appendOnlyTs_rfl (l : List AnswerRecord) (now : String) :
    appendOnlyTs l l now := by
  refine ⟨le_refl _, rfl, ?_⟩
  rw [List.drop_length]
  intro a ha
  simp at ha

theorem appendOnlyTs_append (l : List AnswerRecord) (rec : AnswerRecord)
    (now : String) (h : rec.timestamp = some now) :
    appendOnlyTs l (l ++ [rec]) now := by
  refine ⟨by simp, take_pred_append l [rec], ?_⟩
  rw [drop_length_append]
  intro a ha
  simp at ha
  rw [ha]
  exact h

theorem appendOnlyTs_updateLast (f : AnswerRecord → AnswerRecord)
    (l : List AnswerRecord) (now : String) :
    appendOnlyTs l (updateLast f l) now := by
  refine ⟨le_of_eq (updateLast_length f l).symm, updateLast_take_pred f l, ?_⟩
  rw [updateLast_drop_length]
  intro a ha
  simp at ha

theorem appendOnlyTs_updateLast_append (f : AnswerRecord → AnswerRecord)
    (l : List AnswerRecord) (rec : AnswerRecord) (now : String)
    (h : rec.timestamp = some now) :
    appendOnlyTs l (updateLast f l ++ [rec]) now := by
  refine ⟨?_, updateLast_append_take_pred f l [rec], ?_⟩
  · rw [List.length_append, updateLast_length]
    exact Nat.le_add_right _ _
  · rw [updateLast_append_drop_length]
    intro a ha
    simp at ha
    rw [ha]
    exact h

theorem appendOnly_of_append (old t : List AnswerRecord) (rec : AnswerRecord)
    (now u : String) (hl : t = old ++ [rec]) (hts : rec.timestamp = some now)
    (hum : rec.user_message = some u) :
    appendOnlyTs old t now ∧ ∀ a ∈ t.drop old.length, a.user_message = some u := by
  subst hl
  refine ⟨appendOnlyTs_append old rec now hts, ?_⟩
  rw [drop_length_append]
  intro a ha
  simp at ha
  rw [ha]
  exact hum

theorem drop_self_user (l : List AnswerRecord) (u : String) :
    ∀ a ∈ l.drop l.length, a.user_message = some u := by
  rw [List.drop_length]
  intro a ha
  simp at ha

theorem examStep_append_only (s : WorkflowState) (u now io : String) (ev : ExamEval) :
    appendOnlyTs s.answers (examStep s u now io ev).1.answers now := by
  simp only [examStep]
  split_ifs <;>
    first
      | exact appendOnlyTs_rfl _ _
      | exact appendOnlyTs_append _ _ _ rfl
      | exact appendOnlyTs_updateLast _ _ _
      | exact appendOnlyTs_updateLast_append _ _ _ _ rfl

theorem fillGapsStep_append_only (sp : List (List (String × String)))
    (s : WorkflowState) (u now t : String) (ev : GapsEval) :
    appendOnlyTs s.answers (fillGapsStep sp s u now t ev).1.answers now := by
  simp only [fillGapsStep]
  split_ifs <;>
    first
      | exact appendOnlyTs_rfl _ _
      | exact appendOnlyTs_append _ _ _ rfl
      | exact appendOnlyTs_updateLast _ _ _
      | exact appendOnlyTs_updateLast_append _ _ _ _ rfl

theorem roleplayStep_append_only (sp : List (List (String × String)))
    (s : WorkflowState) (u now out : String) :
    appendOnlyTs s.answers (roleplayStep sp s u now out).1.answers now ∧
    ∀ a ∈ (roleplayStep sp s u now out).1.answers.drop s.answers.length,
      a.user_message = some u := by
  by_cases h : s.status = "finished"
  · rw [roleplayStep_finished_guard sp s u now out h]
    exact ⟨appendOnlyTs_rfl _ _, drop_self_user _ u⟩
  · obtain ⟨s3, rec, heq, hans, -, hts, hum, -⟩ := roleplayStep_result sp s u now out h
    rw [heq]
    split_ifs with hc
    · exact appendOnly_of_append s.answers _ _ now u hans hts hum
    · exact appendOnly_of_append s.answers _ _ now u hans hts hum

theorem reflectionStep_append_only (sp : List (List (String × String)))
    (s : WorkflowState) (u now c : String) :
    appendOnlyTs s.answers (reflectionStep sp s u now c).1.answers now ∧
    ∀ a ∈ (reflectionStep sp s u now c).1.answers.drop s.answers.length,
      a.user_message = some u := by
  by_cases h : s.status = "finished"
  · rw [reflectionStep_finished_guard sp s u now c h]
    exact ⟨appendOnlyTs_rfl _ _, drop_self_user _ u⟩
  · obtain ⟨s2, rec, heq, -, hans, hts, hum, -⟩ := reflectionStep_result sp s u now c h
    rw [heq]
    exact appendOnly_of_append s.answers _ _ now u
      ((update_phase_and_data_answers s2 u c (sp.headD [])).trans hans) hts hum

theorem customStep_append_only (s : WorkflowState) (u now a0 : String) :
    appendOnlyTs s.answers (customStep s u now a0).1.answers now ∧
    ∀ a ∈ (customStep s u now a0).1.answers.drop s.answers.length,
      a.user_message = some u := by
  simp only [customStep]
  split_ifs with h
  · exact ⟨appendOnlyTs_rfl _ _, drop_self_user _ u⟩
  · exact appendOnly_of_append s.answers _ _ now u rfl rfl rfl

theorem analogousStep_append_only (sp : List (List (String × String)))
    (s : WorkflowState) (u now t : String) (ev : AnalogousEval) :
    appendOnlyTs s.answers (analogousStep sp s u now t ev).1.answers now := by
  simp only [analogousStep]
  split_ifs with h1 h2
  · exact appendOnlyTs_rfl _ _
  · rw [show s.answers = [] from List.eq_nil_of_length_eq_zero h2]
    exact appendOnlyTs_append _ _ _ rfl
  all_goals
    first
      | exact appendOnlyTs_updateLast _ _ _
      | exact appendOnlyTs_updateLast_append _ _ _ _ rfl
      | exact appendOnlyTs_append _ _ _ rfl

/-- C9 counterexample: the Examination record appended when a question is
asked stores an empty answer and no user message at all — the raw student
message "hello" of that turn appears nowhere in the record. -/
theorem C9_counterexample :
    (examStep (freshState 1 2 [{ question := some "Питання?" }]) "hello" "T0"
        "ask" ⟨false, [], false⟩).1.answers =
      [{ question_index := some 0, answer := some "", timestamp := some "T0",
         evaluation := some ({} : EvalDict) }] ∧
    ((examStep (freshState 1 2 [{ question := some "Питання?" }]) "hello" "T0"
        "ask" ⟨false, [], false⟩).1.answers.headD {}).user_message = none ∧
    ((examStep (freshState 1 2 [{ question := some "Питання?" }]) "hello" "T0"
        "ask" ⟨false, [], false⟩).1.answers.headD {}).answer ≠ some "hello" := by
  refine ⟨by decide, by decide, by decide⟩

/-- C9 (amended): every workflow invocation treats the answers sequence as
append-only — its length never decreases, all records but (possibly) the
in-place-updated last one are preserved unchanged, and every appended
record carries the invocation timestamp.  Roleplay, Reflection and Custom
appended records also store the raw user message; Examination, FillGaps and
Analogous appended records do not (see the counterexample). -/
theorem C9_answers_append_only :
    (∀ (s : WorkflowState) (u now io : String) (ev : ExamEval),
      appendOnlyTs s.answers (examStep s u now io ev).1.answers now) ∧
    (∀ (sp : List (List (String × String))) (s : WorkflowState)
        (u now t : String) (ev : GapsEval),
      appendOnlyTs s.answers (fillGapsStep sp s u now t ev).1.answers now) ∧
    (∀ (sp : List (List (String × String))) (s : WorkflowState) (u now out : String),
      appendOnlyTs s.answers (roleplayStep sp s u now out).1.answers now ∧
      ∀ a ∈ (roleplayStep sp s u now out).1.answers.drop s.answers.length,
        a.user_message = some u) ∧
    (∀ (sp : List (List (String × String))) (s : WorkflowState) (u now c : String),
      appendOnlyTs s.answers (reflectionStep sp s u now c).1.answers now ∧
      ∀ a ∈ (reflectionStep sp s u now c).1.answers.drop s.answers.length,
        a.user_message = some u) ∧
    (∀ (s : WorkflowState) (u now a0 : String),
      appendOnlyTs s.answers (customStep s u now a0).1.answers now ∧
      ∀ a ∈ (customStep s u now a0).1.answers.drop s.answers.length,
        a.user_message = some u) ∧
    (∀ (sp : List (List (String × String))) (s : WorkflowState)
        (u now t : String) (ev : AnalogousEval),
      appendOnlyTs s.answers (analogousStep sp s u now t ev).1.answers now) :=
  ⟨examStep_append_only, fillGapsStep_append_only, roleplayStep_append_only,
   reflectionStep_append_only, customStep_append_only, analogousStep_append_only⟩

/-- Concrete instance of the amended append-only statement: one Custom turn
on a fresh session appends exactly one record carrying the timestamp and
the raw user message. -/
theorem C9_witness :
    appendOnlyTs (freshState 3 4 []).answers
      (customStep (freshState 3 4 []) "привіт" "T1" "відповідь").1.answers "T1" ∧
    ({ user_message := some "привіт", assistant_response := some "відповідь",
       timestamp := some "T1" } : AnswerRecord).user_message = some "привіт" :=
  ⟨(C9_answers_append_only.2.2.2.2.1 (freshState 3 4 []) "привіт" "T1" "відповідь").1,
   (C9_answers_append_only.2.2.2.2.1 (freshState 3 4 []) "привіт" "T1" "відповідь").2
     _ (by decide)⟩

/-! ## C10: the cached-grade branch of the evaluate endpoint -/

/-- C10 counterexample: a session whose stored record contains the grade 0
is NOT served from the cache — the stored 0 is falsy, so the endpoint
resolves the workflow, issues the generation call and overwrites the
session status and grade even though a grade is present. -/
theorem C10_counterexample :
    truthyGrade (some (0 : ℚ)) = false ∧
    evaluate_chat (fun _ => "звіт") (fun _ => none) "T2" 7
      { block_id := 4, status := some "finished", grade := some 0 }
      { id := 4, int_template_id := 25, eval_instructions := some "Оцініть розмову.",
        eval_crit_json := .lst [], model := some "gpt-4o" }
      (some finishedDemoState) true =
      .ok ({ evaluation := .txt "звіт", timestamp := "T2",
             conversation_length := 1, criteria_count := 0, cached := false,
             grade_saved := some true },
           [.resolve_workflow 25, .generation,
            .update_status (some "finished") (some "звіт")]) := by
  constructor
  · decide
  · rfl

/-- C10 (amended): when the stored grade is truthy (present and nonzero),
the evaluate endpoint returns it marked as cached without resolving a
workflow, without calling the generation service and without updating the
session — the action list is empty; a stored grade of 0 or an absent grade
triggers a fresh evaluation (see the counterexample). -/
theorem C10_cached_grade (gen : String → String)
    (decode : String → Option (List Criterion)) (now : String) (ub_id : Nat)
    (session : ChatSession) (block : BlockConfig) (ows : Option WorkflowState)
    (update_ok : Bool) (h : truthyGrade session.grade = true) :
    evaluate_chat gen decode now ub_id session block ows update_ok =
      .ok ({ evaluation := .num (session.grade.getD 0), timestamp := now,
             conversation_length := 0, criteria_count := 0, cached := true }, []) := by
  simp only [evaluate_chat]
  rw [if_pos h]

/-- Concrete instance of the cached-grade branch: a stored grade of 7 is
returned as cached with no side-effect actions. -/
theorem C10_witness :
    truthyGrade (some (7 : ℚ)) = true ∧
    evaluate_chat (fun _ => "звіт") (fun _ => none) "T3" 8
      { block_id := 4, status := some "finished", grade := some 7 }
      { id := 4, int_template_id := 25, eval_instructions := some "Оцініть.",
        eval_crit_json := .lst [], model := none }
      (some finishedDemoState) false =
      .ok ({ evaluation := .num 7, timestamp := "T3",
             conversation_length := 0, criteria_count := 0, cached := true }, []) := by
  have h7 : truthyGrade (some (7 : ℚ)) = true := by
    decide
  exact ⟨h7, C10_cached_grade _ _ _ _ _ _ _ _ h7⟩
